import Mathlib

/-!
Verification of the Omnicontrol multi-transport command and pairing engine.

This file shallowly embeds the pure decision logic of the backend
(`device_manager.py`, `classic_rfcomm.py`, `controllers/bluetooth.py`,
`controllers/samsung.py`) in Lean.  Python strings are Lean `String`s
(whose `data` field is a `List Char`), untyped JSON-ish values are the
inductive `JVal`, dictionaries are association lists, and fallible
Python code is modelled with `Except String`.
-/

/-- Untyped Python/JSON value, as stored in command payloads, device
metadata and capability summaries. -/
inductive JVal where
  | null
  | bool (b : Bool)
  | int (n : Int)
  | rat (q : Rat)
  | str (s : String)
  | arr (xs : List JVal)
  | obj (kvs : List (String × JVal))

/-- Python truthiness, `bool(v)`. -/
def JVal.truthy : JVal → Bool
  | .null => false
  | .bool b => b
  | .int n => n != 0
  | .rat q => q != 0
  | .str s => !(s == "")
  | .arr xs => !xs.isEmpty
  | .obj kvs => !kvs.isEmpty

/-- Apostrophe character, used when rendering Python `repr` of strings. -/
def quoteChar : Char := Char.ofNat 39

mutual

/-- Python `repr` of a value (approximate: strings are always rendered
with single quotes). -/
def JVal.pyRepr : JVal → String
  | .null => "None"
  | .bool b => if b then "True" else "False"
  | .int n => toString n
  | .rat q => toString q
  | .str s => String.mk (quoteChar :: s.data ++ [quoteChar])
  | .arr xs => "[" ++ String.intercalate ", " (JVal.pyReprList xs) ++ "]"
  | .obj kvs => "\x7b" ++ String.intercalate ", " (JVal.pyReprObj kvs) ++ "\x7d"

/-- Renders list elements for `JVal.pyRepr`. -/
def JVal.pyReprList : List JVal → List String
  | [] => []
  | v :: rest => v.pyRepr :: JVal.pyReprList rest

/-- Renders dictionary entries for `JVal.pyRepr`. -/
def JVal.pyReprObj : List (String × JVal) → List String
  | [] => []
  | (k, v) :: rest => ((JVal.str k).pyRepr ++ ": " ++ v.pyRepr) :: JVal.pyReprObj rest

end

/-- Python `str(v)`. -/
def JVal.pyStr : JVal → String
  | .str s => s
  | v => v.pyRepr

/-- Generic association-list lookup (Python dictionary indexing),
`none` on a missing key. -/
def alookup {α : Type} (kvs : List (String × α)) (k : String) : Option α :=
  match kvs with
  | [] => none
  | (k0, v0) :: rest => if k0 = k then some v0 else alookup rest k

/-- Dictionary lookup on JSON-valued dictionaries, `d.get(k)`. -/
def jget (kvs : List (String × JVal)) (k : String) : Option JVal :=
  alookup kvs k

/-- Dictionary update `d[k] = v`: replaces the first binding of `k`, or
appends a new binding (Python dicts keep insertion order). -/
def assocSet {α : Type} (kvs : List (String × α)) (k : String) (v : α) : List (String × α) :=
  match kvs with
  | [] => [(k, v)]
  | (k0, v0) :: rest => if k0 = k then (k, v) :: rest else (k0, v0) :: assocSet rest k v

/-- Dictionary update on JSON-valued dictionaries. -/
def jset (kvs : List (String × JVal)) (k : String) (v : JVal) : List (String × JVal) :=
  assocSet kvs k v

/-- Python `a or b` on optional dictionary values: the first truthy value,
else the default. -/
def pyOrJ (v : Option JVal) (dflt : JVal) : JVal :=
  match v with
  | some x => if x.truthy then x else dflt
  | none => dflt

/-- Python `d.update(e)`: set every binding of `e` in `d`, in order. -/
def jupdate (kvs entries : List (String × JVal)) : List (String × JVal) :=
  entries.foldl (fun acc kv => jset acc kv.1 kv.2) kvs

/-- Python `d.get(k) or default` for string-valued reads:
`str(d.get(k) or dflt)`. -/
def jgetStrOr (kvs : List (String × JVal)) (k : String) (dflt : String) : String :=
  match jget kvs k with
  | some v => if v.truthy then v.pyStr else dflt
  | none => dflt

/-- Python whitespace as stripped by `str.strip()` and matched by `\s`
(space, tab, newline, carriage return, vertical tab, form feed). -/
def isSpacePy (c : Char) : Bool :=
  c.toNat = 32 || c.toNat = 9 || c.toNat = 10 || c.toNat = 13 || c.toNat = 11 || c.toNat = 12

/-- Hexadecimal digit, `[0-9A-Fa-f]` (codes 48-57, 97-102, 65-70). -/
def isHexDigitPy (c : Char) : Bool :=
  (48 ≤ c.toNat && c.toNat ≤ 57) || (97 ≤ c.toNat && c.toNat ≤ 102) ||
    (65 ≤ c.toNat && c.toNat ≤ 70)

/-- Python `str.strip()`. -/
def pyStrip (s : String) : String :=
  String.mk (((s.data.dropWhile isSpacePy).reverse.dropWhile isSpacePy).reverse)

/-- Python `str.lower()` (ASCII). -/
def pyLower (s : String) : String := String.mk (s.data.map Char.toLower)

/-- Python `str.upper()` (ASCII). -/
def pyUpper (s : String) : String := String.mk (s.data.map Char.toUpper)

/-- Python `prefixStr + s` startswith test. -/
def pyStartsWith (s pre : String) : Bool := pre.data.isPrefixOf s.data

/-- Python `s[n:]`. -/
def pyDrop (s : String) (n : Nat) : String := String.mk (s.data.drop n)

/-- Python single-character `str.replace(a, b)`. -/
def replaceCh (a b : Char) (s : String) : String :=
  String.mk (s.data.map (fun c => if c = a then b else c))

/-- Python substring containment `pat in hay`. -/
def containsSub (hay pat : String) : Bool :=
  (hay.data.tails.any (fun t => pat.data.isPrefixOf t))

/-- Parse an optional sign followed by decimal digits, as Python
`int(str)` does after stripping whitespace. -/
def parseSignedDigits (cs : List Char) : Option Int :=
  let body (ds : List Char) : Option Nat :=
    if ds = [] then none
    else if ds.all Char.isDigit then
      some (ds.foldl (fun acc c => acc * 10 + (c.toNat - 48)) 0)
    else none
  match cs with
  | '-' :: rest => (body rest).map (fun n => -(n : Int))
  | '+' :: rest => (body rest).map (fun n => (n : Int))
  | _ => (body cs).map (fun n => (n : Int))

/-- Python `int(s)` on a string. -/
def pyIntOfString (s : String) : Option Int := parseSignedDigits (pyStrip s).data

/-- Python truncation toward zero, `int(float)`. -/
def ratTrunc (q : Rat) : Int := if q < 0 then -((-q).floor) else q.floor

/-- Python `int(v)` on an untyped value; `none` models TypeError/ValueError. -/
def pyToInt : JVal → Option Int
  | .bool b => some (if b then 1 else 0)
  | .int n => some n
  | .rat q => some (ratTrunc q)
  | .str s => pyIntOfString s
  | _ => none

/-- Parse Python `float(s)` on decimal literals, as an exact rational. -/
def parseRat (cs : List Char) : Option Rat :=
  let digits (ds : List Char) : Option Nat :=
    if ds = [] then none
    else if ds.all Char.isDigit then
      some (ds.foldl (fun acc c => acc * 10 + (c.toNat - 48)) 0)
    else none
  let unsigned (ds : List Char) : Option Rat :=
    match ds.splitOn '.' with
    | [whole] => (digits whole).map (fun n => (n : Rat))
    | [whole, frac] =>
        if whole = [] ∧ frac = [] then none
        else
          let w : Option Nat := if whole = [] then some 0 else digits whole
          let f : Option Nat := if frac = [] then some 0 else digits frac
          match w, f with
          | some wn, some fn => some ((wn : Rat) + (fn : Rat) / ((10 : Rat) ^ frac.length))
          | _, _ => none
    | _ => none
  match cs with
  | '-' :: rest => (unsigned rest).map (fun q => -q)
  | '+' :: rest => unsigned rest
  | _ => unsigned cs

/-- Python `float(v)` on an untyped value; `none` models TypeError/ValueError. -/
def pyToRat : JVal → Option Rat
  | .bool b => some (if b then 1 else 0)
  | .int n => some (n : Rat)
  | .rat q => some q
  | .str s => parseRat (pyStrip s).data
  | _ => none

/-- Python `round(x)` to the nearest integer, halves to even. -/
def pyRound (q : Rat) : Int :=
  let f := q.floor
  let frac := q - (f : Rat)
  if frac > 1 / 2 then f + 1
  else if frac < 1 / 2 then f
  else if f % 2 = 0 then f else f + 1

/-- Hexadecimal digit value. -/
def hexVal (c : Char) : Nat :=
  if '0' ≤ c && c ≤ '9' then c.toNat - 48
  else if 'a' ≤ c && c ≤ 'f' then c.toNat - 87
  else c.toNat - 55

/-- Characters removed from hex payloads before decoding. -/
def isHexSeparator (c : Char) : Bool :=
  c = ' ' || c = '-' || c = ':' || c = ',' || c = '\n' || c = '\t'

/-- Python `s.replace("0x", "")`: delete every (non-overlapping
left-to-right) occurrence of the two-character pattern. -/
def removeZeroX : List Char → List Char
  | '0' :: 'x' :: rest => removeZeroX rest
  | c :: rest => c :: removeZeroX rest
  | [] => []

/-- DeviceManager._decode_payload_hex: strip `0x` and separators, require
even length, decode hex pairs to bytes. -/
def decodePayloadHex (payloadHex : String) : Except String (List Nat) :=
  let cleaned := (removeZeroX payloadHex.data).filter (fun c => !isHexSeparator c)
  if cleaned.length % 2 ≠ 0 then
    .error "Hex payload must have an even number of characters"
  else if cleaned.all isHexDigitPy then
    .ok (decodePairs cleaned)
  else
    .error "Invalid hex payload"
where
  decodePairs : List Char → List Nat
    | hi :: lo :: rest => (16 * hexVal hi + hexVal lo) :: decodePairs rest
    | _ => []

/-- Group a flat list of hex digits into two-character octet strings. -/
def chunkPairs : List Char → List String
  | a :: b :: rest => String.mk [a, b] :: chunkPairs rest
  | [a] => [String.mk [a]]
  | [] => []

/-- Reformat extracted hex digits as an uppercase colon-separated address,
`":".join(pairs).upper()`. -/
def formatColonUpper (hexOnly : String) : String :=
  pyUpper (String.intercalate ":" (chunkPairs hexOnly.data))

namespace DeviceManager

/-- Cleaning pipeline of DeviceManager._normalize_bt_address: strip, map
separators to colons, drop a case-insensitive `dev_` prefix, map
underscores to colons, remove whitespace, keep hex digits only. -/
def extractHexDigits (value : String) : String :=
  let cleaned := pyStrip value
  let c1 := replaceCh '/' ':' (replaceCh '.' ':' (replaceCh '-' ':' cleaned))
  let c2 := if pyStartsWith (pyLower c1) "dev_" then pyDrop c1 4 else c1
  let c3 := replaceCh '_' ':' c2
  let c4 := String.mk (c3.data.filter (fun c => !isSpacePy c))
  String.mk (c4.data.filter isHexDigitPy)

/-- DeviceManager._normalize_bt_address: canonicalize a Bluetooth address
to uppercase colon-separated form, rejecting inputs that do not clean up
to exactly 12 hex digits. -/
def normalizeBtAddress (value : String) : Except String String :=
  if pyStrip value = "" then .error "Bluetooth address required"
  else if (extractHexDigits value).data.length ≠ 12 then
    .error "Bluetooth address must be 12 hex characters (e.g. AA:BB:CC:DD:EE:FF)"
  else
    .ok (formatColonUpper (extractHexDigits value))

end DeviceManager

namespace BluetoothController

/-- Prefix stripping of BluetoothController._normalize_bt_address: the
regex alternation tries `dev[_:-]?` first (so a `device...` input only
loses `dev`), then `bluetooth:`. -/
def stripKnownPrefix (s : String) : String :=
  if pyStartsWith (pyLower s) "dev" then
    let rest := pyDrop s 3
    if pyStartsWith rest "_" || pyStartsWith rest ":" || pyStartsWith rest "-" then
      pyDrop s 4
    else rest
  else if pyStartsWith (pyLower s) "bluetooth:" then pyDrop s 10
  else s

/-- Split on maximal runs of non-hex characters and keep non-empty parts,
`re.split` then filter. -/
def hexParts (cs : List Char) : List (List Char) :=
  (cs.splitOnP (fun c => !isHexDigitPy c)).filter (fun p => p ≠ [])

/-- BluetoothController._normalize_bt_address: canonicalizes 12-hex-digit
inputs, but falls back to returning the uppercased input (no rejection)
when the hex-digit count is not 12; only the empty string is rejected. -/
def normalizeBtAddress (address : String) : Except String String :=
  if address = "" then .error "empty bluetooth address"
  else
    let s := stripKnownPrefix (pyStrip address)
    let hexStr := String.mk (s.data.filter isHexDigitPy)
    if hexStr.data.length = 12 then
      .ok (formatColonUpper hexStr)
    else
      let joined := String.mk (hexParts s.data).flatten
      if joined.data.length = 12 then
        .ok (formatColonUpper joined)
      else
        .ok (pyUpper s)

end BluetoothController

/-- Canonical uppercase colon form of 12 raw hex digits; this is the
common output `formatColonUpper` produces on them. -/
def canonColon (hs : List Char) : String := formatColonUpper (String.mk hs)

/-- Render 12 hex digits as a bare address string. -/
def renderBare (hs : List Char) : String := String.mk hs

/-- Render 12 hex digits as six octets separated by the given character. -/
def renderSep (sep : Char) : List Char → String
  | a :: b :: rest@(_ :: _) => String.mk [a, b, sep] ++ renderSep sep rest
  | rest => String.mk rest

/-- Render 12 hex digits with a `dev_` prefix. -/
def renderDev (hs : List Char) : String := "dev_" ++ String.mk hs

/-- Python `str.title()`: uppercase a letter that follows a non-letter,
lowercase the other letters. -/
def pyTitle (s : String) : String := String.mk (go s.data false)
where
  go : List Char → Bool → List Char
    | [], _ => []
    | c :: rest, prevAlpha =>
        if c.isAlpha then
          (if prevAlpha then c.toLower else c.toUpper) :: go rest true
        else c :: go rest false

namespace DeviceManager

/-- Raw command dictionaries and normalized command specifications are
untyped string-keyed maps. -/
abbrev CmdDict := List (String × JVal)

/-- Determines the command transport tag,
`str(raw.get("transport") or raw.get("protocol") or "ble").strip().lower()`. -/
def rawTransport (raw : CmdDict) : String :=
  pyLower (pyStrip (JVal.pyStr
    (pyOrJ (jget raw "transport") (pyOrJ (jget raw "protocol") (JVal.str "ble")))))

/-- Command id field, `str(raw.get("id") or "").strip()`. -/
def rawCommandId (raw : CmdDict) : String :=
  pyStrip (JVal.pyStr (pyOrJ (jget raw "id") (JVal.str "")))

/-- Hex payload field, `str(raw.get("payload_hex")).strip()` when that
value is truthy, else the empty string. -/
def rawPayloadHex (raw : CmdDict) : String :=
  match jget raw "payload_hex" with
  | some v => if v.truthy then pyStrip v.pyStr else ""
  | none => ""

/-- Validates `payload_ascii`: present non-null values must be strings. -/
def rawPayloadAscii (raw : CmdDict) : Except String (Option String) :=
  match jget raw "payload_ascii" with
  | none => .ok none
  | some .null => .ok none
  | some (.str s) => .ok (some s)
  | some _ => .error "payload_ascii must be a string"

/-- BLE branch of DeviceManager._normalize_command_spec: requires a
characteristic and records the response flag. -/
def bleFields (raw : CmdDict) (spec : CmdDict) : Except String CmdDict :=
  let characteristic := pyLower (pyStrip (jgetStrOr raw "characteristic" ""))
  if characteristic = "" then .error "Characteristic missing for BLE command"
  else
    let spec := jset spec "characteristic" (.str characteristic)
    let withResponse :=
      match jget raw "with_response" with
      | some v => v.truthy
      | none => false
    .ok (jset spec "with_response" (.bool withResponse))

/-- An optional numeric-ish field is processed only when it is present,
non-null and its string form is non-blank. -/
def fieldPresent (v : Option JVal) : Option JVal :=
  match v with
  | some .null => none
  | some x => if pyStrip x.pyStr = "" then none else some x
  | none => none

/-- Final locator requirement of the RFCOMM branch: at least one of the
channel number or service locators must have been recorded. -/
def rfcommLocatorCheck (spec : CmdDict) : Except String CmdDict :=
  if (jget spec "rfcomm_channel").isNone ∧ (jget spec "service_uuid").isNone ∧
      (jget spec "service_name").isNone then
    .error "RFCOMM command requires rfcomm_channel, service_uuid, or service_name"
  else .ok spec

/-- Pre-send wait validation of the RFCOMM branch. -/
def rfcommWait (raw : CmdDict) (spec : CmdDict) : Except String CmdDict :=
  match fieldPresent (jget raw "wait_ms") with
  | some v =>
      match pyToInt v with
      | none => .error "wait_ms must be an integer"
      | some n =>
          if n < 0 then .error "wait_ms must be >= 0"
          else rfcommLocatorCheck (jset spec "wait_ms" (.int n))
  | none => rfcommLocatorCheck spec

/-- Response-timeout validation of the RFCOMM branch. -/
def rfcommTimeout (raw : CmdDict) (spec : CmdDict) : Except String CmdDict :=
  match fieldPresent (jget raw "response_timeout") with
  | some v =>
      match pyToRat v with
      | none => .error "response_timeout must be numeric"
      | some q =>
          if q < 0 then .error "response_timeout must be >= 0"
          else rfcommWait raw (jset spec "response_timeout" (.rat q))
  | none => rfcommWait raw spec

/-- Service locators and expected-response validation of the RFCOMM
branch. -/
def rfcommResponse (raw : CmdDict) (spec : CmdDict) : Except String CmdDict :=
  let serviceUuid := pyLower (pyStrip (jgetStrOr raw "service_uuid" ""))
  let spec := if serviceUuid ≠ "" then jset spec "service_uuid" (.str serviceUuid) else spec
  let serviceName := pyStrip (jgetStrOr raw "service_name" "")
  let spec := if serviceName ≠ "" then jset spec "service_name" (.str serviceName) else spec
  match fieldPresent (jget raw "response_bytes") with
  | some v =>
      match pyToInt v with
      | none => .error "response_bytes must be an integer"
      | some n =>
          if n < 0 then .error "response_bytes must be >= 0"
          else rfcommTimeout raw (jset spec "response_bytes" (.int n))
  | none => rfcommTimeout raw spec

/-- RFCOMM branch of DeviceManager._normalize_command_spec: validates the
channel number, service locators, expected response length, response
timeout and pre-send wait, and requires at least one locator. -/
def rfcommFields (raw : CmdDict) (spec : CmdDict) : Except String CmdDict :=
  match fieldPresent (jget raw "rfcomm_channel") with
  | some v =>
      match pyIntOfString (pyStrip v.pyStr) with
      | none => .error "rfcomm_channel must be an integer"
      | some ch =>
          if ch ≤ 0 ∨ ch > 30 then .error "rfcomm_channel must be between 1 and 30"
          else rfcommResponse raw (jset spec "rfcomm_channel" (.int ch))
  | none => rfcommResponse raw spec

/-- Samsung key code,
`str(key or key_code or data_of_cmd or data or "").strip().upper()`. -/
def rawSamsungKey (raw : CmdDict) : String :=
  pyUpper (pyStrip (JVal.pyStr
    (pyOrJ (jget raw "key")
      (pyOrJ (jget raw "key_code")
        (pyOrJ (jget raw "data_of_cmd")
          (pyOrJ (jget raw "data") (JVal.str "")))))))

/-- Samsung branch of DeviceManager._normalize_command_spec: requires a
key code and validates verb, option, remote type, repeat count and
inter-repeat delay. -/
def samsungFields (raw : CmdDict) (spec : CmdDict) : Except String CmdDict :=
  let keyCode := rawSamsungKey raw
  if keyCode = "" then .error "Samsung command missing key"
  else
    let spec := jset spec "key" (.str keyCode)
    let cmdValue := pyStrip (JVal.pyStr (pyOrJ (jget raw "cmd") (pyOrJ (jget raw "action") (JVal.str "Click"))))
    let spec := if cmdValue ≠ "" then jset spec "cmd" (.str cmdValue) else spec
    let spec :=
      match jget raw "option" with
      | some .null => spec
      | some v => jset spec "option" v
      | none => spec
    let remoteType := pyStrip (JVal.pyStr
      (pyOrJ (jget raw "remote_type") (pyOrJ (jget raw "type_of_remote") (JVal.str "SendRemoteKey"))))
    let spec := if remoteType ≠ "" then jset spec "remote_type" (.str remoteType) else spec
    match fieldPresent (jget raw "repeat") with
    | some v =>
        match pyToInt v with
        | none => .error "repeat must be an integer"
        | some n =>
            if n ≤ 0 then .error "repeat must be >= 1"
            else goDelay (jset spec "repeat" (.int n))
    | none => goDelay spec
where
  goDelay (spec : CmdDict) : Except String CmdDict :=
    match fieldPresent (jget raw "repeat_delay_ms") with
    | some v =>
        match pyToRat v with
        | none => .error "repeat_delay_ms must be numeric"
        | some q =>
            let delayMs := ratTrunc q
            if delayMs < 0 then .error "repeat_delay_ms must be >= 0"
            else goTail (jset spec "repeat_delay_ms" (.int delayMs))
    | none =>
        match fieldPresent (jget raw "repeat_delay") with
        | some v =>
            match pyToRat v with
            | none => .error "repeat_delay must be numeric"
            | some q =>
                if q < 0 then .error "repeat_delay must be >= 0"
                else goTail (jset spec "repeat_delay_ms" (.int (pyRound (q * 1000))))
        | none => goTail spec
  goTail (spec : CmdDict) : Except String CmdDict :=
    let spec :=
      match jget raw "token" with
      | some v => if v.truthy then jset spec "token" (.str v.pyStr) else spec
      | none => spec
    let ipOverride := pyOrJ (jget raw "ip") (pyOrJ (jget raw "host") JVal.null)
    let spec := if ipOverride.truthy then jset spec "ip" (.str ipOverride.pyStr) else spec
    .ok spec

/-- Attaches the payload fields at the end of normalization: hex payload
wins, else a non-empty ascii payload, else an empty hex payload. -/
def attachPayload (spec : CmdDict) (payloadHex : String) (payloadAscii : Option String) : CmdDict :=
  if payloadHex ≠ "" then jset spec "payload_hex" (.str payloadHex)
  else
    match payloadAscii with
    | some s => if s ≠ "" then jset spec "payload_ascii" (.str s) else jset spec "payload_hex" (.str "")
    | none => jset spec "payload_hex" (.str "")

/-- Display label of a command,
`str(raw.get("label") or command_id.replace("_", " ").title()).strip()`. -/
def rawLabel (raw : CmdDict) : String :=
  pyStrip (JVal.pyStr
    (pyOrJ (jget raw "label") (.str (pyTitle (replaceCh '_' ' ' (rawCommandId raw))))))

/-- Identity fields shared by every normalized specification. -/
def baseSpec (raw : CmdDict) : CmdDict :=
  [("id", .str (rawCommandId raw)), ("label", .str (rawLabel raw)),
   ("transport", .str (rawTransport raw))]

/-- DeviceManager._normalize_command_spec: validates and canonicalizes an
untyped command map into a transport-tagged specification, or rejects it
with an error. -/
def normalizeCommandSpec (raw : CmdDict) : Except String CmdDict :=
  if rawCommandId raw = "" then .error "Command id missing"
  else
    let transport := rawTransport raw
    if ¬(transport = "ble" ∨ transport = "rfcomm" ∨ transport = "samsung") then
      .error "Unsupported command transport"
    else
      match rawPayloadAscii raw with
      | .error e => .error e
      | .ok payloadAscii =>
          let payloadHex := rawPayloadHex raw
          match (if payloadHex ≠ "" then (decodePayloadHex payloadHex).map (fun _ => ()) else .ok ()) with
          | .error e => .error e
          | .ok _ =>
              let branch :=
                if transport = "ble" then bleFields raw (baseSpec raw)
                else if transport = "rfcomm" then rfcommFields raw (baseSpec raw)
                else samsungFields raw (baseSpec raw)
              match branch with
              | .error e => .error e
              | .ok spec => .ok (attachPayload spec payloadHex payloadAscii)

/-- Identity of a normalized specification, `spec["id"]`. -/
def specId (spec : CmdDict) : String :=
  match jget spec "id" with
  | some (.str s) => s
  | _ => ""

/-- DeviceManager._normalize_command_list: keeps only dict entries whose
normalization succeeds, resolving duplicate ids last-write-wins. -/
def normalizeCommandList (commands : JVal) : List CmdDict :=
  match commands with
  | .arr entries =>
      (entries.foldl
        (fun acc entry =>
          match entry with
          | .obj raw =>
              match normalizeCommandSpec raw with
              | .ok spec => assocSet acc (specId spec) spec
              | .error _ => acc
          | _ => acc)
        []).map (fun kv => kv.2)
  | _ => []

end DeviceManager

/-- Removes a binding, Python `d.pop(k, None)`. -/
def jremove (kvs : List (String × JVal)) (k : String) : List (String × JVal) :=
  kvs.filter (fun kv => !(kv.1 = k : Bool))

/-- Python `s.replace(c, "")`: drop every occurrence of one character. -/
def removeCh (c : Char) (s : String) : String :=
  String.mk (s.data.filter (fun x => !(x == c)))

/-- Python `sorted(set(xs))` on strings. -/
def sortedSet (xs : List String) : List String :=
  xs.dedup.mergeSort (fun a b => a ≤ b)

/-- The central Device entity of the registry (`@dataclass Device`). -/
structure Device where
  id : String
  name : String
  type : String
  room : String
  protocols : List String
  integrations : List String
  status : String := "offline"
  last_seen : String := "Unknown"
  firmware : String := "Unknown"
  address : Option String := none
  metadata : List (String × JVal) := []
  capabilities : List (String × JVal) := []

/-- Truthiness of a metadata flag, `bool(metadata.get(k, False))`. -/
def metaFlag (md : List (String × JVal)) (k : String) : Bool :=
  match jget md k with
  | some v => v.truthy
  | none => false

/-- Serialized form of a Device produced by `Device.to_dict`: the
dataclass fields (address omitted when `None`) plus the derived
top-level `paired`/`trusted` flags. -/
structure DeviceDict where
  id : String
  name : String
  type : String
  room : String
  protocols : List String
  integrations : List String
  status : String
  last_seen : String
  firmware : String
  address : Option String
  metadata : List (String × JVal)
  capabilities : List (String × JVal)
  paired : Bool
  trusted : Bool

/-- Device.to_dict: serialize, sorting and de-duplicating the protocol
and integration tags and deriving `paired`/`trusted` from metadata. -/
def Device.toDict (d : Device) : DeviceDict :=
  { id := d.id, name := d.name, type := d.type, room := d.room,
    protocols := sortedSet d.protocols,
    integrations := sortedSet d.integrations,
    status := d.status, last_seen := d.last_seen, firmware := d.firmware,
    address := d.address,
    metadata := d.metadata, capabilities := d.capabilities,
    paired := metaFlag d.metadata "paired",
    trusted := metaFlag d.metadata "trusted" }

/-- Device.from_dict: rebuild a Device from its stored entry. -/
def Device.fromDict (e : DeviceDict) : Device :=
  { id := e.id, name := e.name, type := e.type, room := e.room,
    protocols := e.protocols, integrations := e.integrations,
    status := e.status, last_seen := e.last_seen, firmware := e.firmware,
    address := e.address, metadata := e.metadata, capabilities := e.capabilities }

/-- Versioned device-store payload written by
DeviceManager._persist_devices. -/
structure StorePayload where
  version : Int
  devices : List DeviceDict
  saved_at : String

/-- Fixed store version, STATE_VERSION. -/
def STATE_VERSION : Int := 1

/-- DeviceManager._persist_devices: whole-file payload with version,
serialized devices and a save timestamp. -/
def persistDevices (ds : List Device) (savedAt : String) : StorePayload :=
  { version := STATE_VERSION, devices := ds.map Device.toDict, saved_at := savedAt }

/-- DeviceManager._load_devices (the well-formed branch): a payload with
the wrong version is rejected (the caller then falls back to seeding). -/
def loadDevices (p : StorePayload) : Option (List (String × Device)) :=
  if p.version = STATE_VERSION then
    some (p.devices.map (fun e => (e.id, Device.fromDict e)))
  else none

/-- Accessory row returned by the HomeKit collaborator. -/
structure Accessory where
  identifier : String
  name : String
  room : String
  pairing_id : String
  aid : Int
  iid : Int
  is_on : Bool

/-- DeviceManager._refresh_homekit_cache, update branch for an existing
device: note that `protocols` is overwritten with `["homekit"]` while
`integrations` is merged union-style. -/
def refreshHomekitExisting (d : Device) (acc : Accessory) (now : String) : Device :=
  { d with
    name := acc.name,
    room := acc.room,
    protocols := ["homekit"],
    integrations := sortedSet (d.integrations ++ ["homekit"]),
    metadata := jupdate d.metadata
      [("pairing_id", .str acc.pairing_id), ("aid", .int acc.aid),
       ("iid", .int acc.iid), ("is_on", .bool acc.is_on)],
    status := if acc.is_on then "online" else "offline",
    last_seen := now }

/-- DeviceManager.update_device_metadata: merge the supplied entries into
the device's metadata bag. -/
def updateDeviceMetadata (d : Device) (metadata : List (String × JVal)) : Device :=
  { d with metadata := jupdate d.metadata metadata }

/-- Result of one Samsung SmartView exchange
(`SamsungRemoteResult`). -/
structure SamsungRemoteResult where
  token : Option String
  messages : List JVal
  error : Option String

/-- Presence of a truthy token in a Samsung result, `if result.token:`. -/
def SamsungRemoteResult.hasToken (r : SamsungRemoteResult) : Bool :=
  match r.token with
  | some t => t ≠ ""
  | none => false

namespace DeviceManager

/-- DeviceManager.pair_samsung_device, state updates around the key
exchange: persist client id and ip, and on token issuance persist the
token, mark paired/trusted, set the device online and append the
`samsung` protocol tag if absent. -/
def pairSamsungDevice (d : Device) (ip : String) (freshClientId : String)
    (result : SamsungRemoteResult) (now : String) : Except String Device :=
  let ipVal := pyStrip ip
  if ipVal = "" then .error "IP required"
  else
    let md0 := d.metadata
    let existingClient := pyOrJ (jget md0 "samsung_client_id") (pyOrJ (jget md0 "smartview_client_id") JVal.null)
    let md1 := if existingClient.truthy then md0 else jset md0 "samsung_client_id" (.str freshClientId)
    let md2 := jset md1 "samsung_ip" (.str ipVal)
    let md3 :=
      if result.hasToken then
        jupdate md2
          [("samsung_token", .str (result.token.getD "")),
           ("paired", .bool true), ("trusted", .bool true)]
      else md2
    .ok { d with
      metadata := md3,
      status := if result.hasToken then "online" else d.status,
      last_seen := if result.hasToken then now else d.last_seen,
      protocols :=
        if result.hasToken ∧ ¬("samsung" ∈ d.protocols) then d.protocols ++ ["samsung"]
        else d.protocols }

/-- Payload of a pairing request (an untyped map). -/
structure PairPayload where
  address : Option JVal := none
  device_id : Option JVal := none
  name : Option JVal := none
  room : Option JVal := none
  type : Option JVal := none
  commands : Option JVal := none

/-- Merge of discovered classic capabilities into a device
(`pair_bluetooth_device` lines handling `classic_caps`). -/
def mergeClassicCaps (d : Device) (md : List (String × JVal)) (caps : List (String × JVal)) :
    Device × List (String × JVal) :=
  if caps.isEmpty then (d, md)
  else
    let md1 := jset md "classic_capabilities" (.obj caps)
    let profiles : List String :=
      match jget caps "profiles" with
      | some (.arr xs) => xs.filterMap (fun v => match v with | .str s => some s | _ => none)
      | _ => []
    let classicCur :=
      match jget d.capabilities "classic" with
      | some (.obj kvs) => kvs
      | _ => []
    let caps1 := jset d.capabilities "classic" (.obj (jupdate classicCur caps))
    let caps2 :=
      if profiles.isEmpty then caps1
      else
        let mediaCur :=
          match jget caps1 "media" with
          | some (.obj kvs) => kvs
          | _ => []
        jset caps1 "media" (.obj (jupdate mediaCur
          [("avrcp", .bool ("avrcp_controller" ∈ profiles ∨ "avrcp_target" ∈ profiles)),
           ("audio_sink", .bool ("audio_sink" ∈ profiles)),
           ("handsfree", .bool ("handsfree_gateway" ∈ profiles ∨ "headset_gateway" ∈ profiles))]))
    ({ d with capabilities := caps2 }, md1)

/-- Pair/trust step of pair_bluetooth_device: run only when the device
is not already paired and trusted; a collaborator failure rejects the
whole pairing with a `Pairing failed:` message, success stamps the
pairing metadata. -/
def pairStepMd (md0 : List (String × JVal)) (pairTrust : Except String Unit) (now : String) :
    Except String (List (String × JVal)) :=
  if ¬(metaFlag md0 "paired" ∧ metaFlag md0 "trusted") then
    match pairTrust with
    | .ok _ =>
        .ok (jupdate md0
          [("paired", .bool true), ("paired_at", .str now),
           ("trusted", .bool true), ("trusted_at", .str now),
           ("pair_agent", .str "NoInputNoOutput")])
    | .error e => .error ("Pairing failed: " ++ e)
  else .ok md0

/-- Device id used by pair_bluetooth_device: the supplied id, or one
derived from the address. -/
def pairDeviceId (payload : PairPayload) (address : String) : String :=
  let did0 := pyStrip (JVal.pyStr (pyOrJ payload.device_id (JVal.str "")))
  if did0 = "" then "ble-" ++ removeCh ':' (pyLower address) else did0

/-- The registry entry pair_bluetooth_device updates: the existing device
under the computed id, or a freshly created one. -/
def pairBaseDevice (devices : List (String × Device)) (deviceId address name room
    deviceType : String) : Device :=
  match alookup devices deviceId with
  | some d => d
  | none =>
      { id := deviceId, name := name, type := deviceType, room := room,
        protocols := ["bluetooth"], integrations := ["scene"], status := "offline",
        last_seen := "Never", firmware := "Unknown", address := some address,
        metadata := [] }

/-- DeviceManager.pair_bluetooth_device: normalize the address, create or
update the registry entry, run the pair/trust step when needed (the
collaborator outcome is the `pairTrust` argument), merge discovered
classic capabilities (`classicCaps`, empty when discovery found
nothing), and partition user-supplied commands by transport. -/
def pairBluetoothDevice (devices : List (String × Device)) (payload : PairPayload)
    (pairTrust : Except String Unit) (classicCaps : List (String × JVal)) (now : String) :
    Except String Device :=
  let addressRaw := pyStrip (JVal.pyStr (pyOrJ payload.address (JVal.str "")))
  if addressRaw = "" then .error "Bluetooth address required for pairing"
  else
    match normalizeBtAddress addressRaw with
    | .error e => .error e
    | .ok address =>
        let deviceId := pairDeviceId payload address
        let name := JVal.pyStr (pyOrJ payload.name (JVal.str address))
        let room := JVal.pyStr (pyOrJ payload.room (JVal.str "Unassigned"))
        let deviceType := JVal.pyStr (pyOrJ payload.type (JVal.str "Display"))
        let normalized := normalizeCommandList (pyOrJ payload.commands (JVal.arr []))
        let device0 := pairBaseDevice devices deviceId address name room deviceType
        let device1 :=
          { device0 with
            name := name, room := room, type := deviceType, address := some address,
            protocols := sortedSet (device0.protocols ++ ["bluetooth"]),
            integrations := sortedSet (device0.integrations ++ ["scene"]) }
        match pairStepMd device1.metadata pairTrust now with
        | .error e => .error e
        | .ok md1 =>
            let (device2, md2) := mergeClassicCaps device1 md1 classicCaps
            let bleCommands := normalized.filter
              (fun cmd => pyLower (jgetStrOr cmd "transport" "ble") ≠ "rfcomm")
            let classicCommands := normalized.filter
              (fun cmd => pyLower (jgetStrOr cmd "transport" "ble") = "rfcomm")
            let md3 :=
              if ¬bleCommands.isEmpty then
                jset md2 "ble_commands" (.arr (bleCommands.map JVal.obj))
              else if (jget md2 "ble_commands").isNone then
                jset md2 "ble_commands" (.arr [])
              else md2
            let md4 :=
              if ¬classicCommands.isEmpty then
                jset md3 "classic_commands" (.arr (classicCommands.map JVal.obj))
              else md3
            let md5 := jupdate md4
              [("paired", .bool true),
               ("paired_at", match jget md4 "paired_at" with | some v => v | none => .str now),
               ("trusted", match jget md4 "trusted" with | some v => v | none => .bool false),
               ("trusted_at", match jget md4 "trusted_at" with | some v => v | none => .null)]
            .ok { device2 with metadata := md5 }

end DeviceManager

/-- Hex rendering of response bytes, `bytes.hex()`. -/
def hexDigitChar (d : Nat) : Char :=
  if d < 10 then Char.ofNat (48 + d) else Char.ofNat (87 + d)

/-- Render a byte string as lowercase hex. -/
def hexOfBytes (bs : List Nat) : String :=
  String.mk ((bs.map (fun b => [hexDigitChar (b / 16 % 16), hexDigitChar (b % 16)])).flatten)

/-- Falsiness of a Python address attribute, `not device.address`
(missing or empty). -/
def addrMissing : Option String → Bool
  | none => true
  | some s => s == ""

namespace DeviceManager

/-- One `_ingest` step of DeviceManager._command_map: keep dict entries
with a non-empty id; an unknown transport tag is silently coerced to
`"ble"`; an unparsable rfcomm channel is dropped from the entry. -/
def ingestEntry (result : List (String × CmdDict)) (entry : JVal) : List (String × CmdDict) :=
  match entry with
  | .obj e =>
      let commandId := pyStrip (jgetStrOr e "id" "")
      if commandId = "" then result
      else
        let transport0 := pyLower (jgetStrOr e "transport" "ble")
        let transport :=
          if transport0 = "ble" ∨ transport0 = "rfcomm" ∨ transport0 = "samsung" then transport0
          else "ble"
        let normalized := jset e "transport" (.str transport)
        let normalized :=
          if transport = "rfcomm" then
            match jget normalized "rfcomm_channel" with
            | some .null => normalized
            | some v =>
                match pyToInt v with
                | some n => jset normalized "rfcomm_channel" (.int n)
                | none => jremove normalized "rfcomm_channel"
            | none => normalized
          else normalized
        assocSet result commandId normalized
  | _ => result

/-- One `_apply_mapping` step of DeviceManager._command_map: bind a
logical action name to an already-ingested command. -/
def applyMapping (result : List (String × CmdDict)) (mapping : Option JVal) :
    List (String × CmdDict) :=
  match mapping with
  | some (.obj kvs) =>
      kvs.foldl
        (fun acc kv =>
          let cid := pyStrip (if kv.2.truthy then kv.2.pyStr else "")
          if cid = "" then acc
          else
            match alookup acc cid with
            | some spec => assocSet acc kv.1 spec
            | none => acc)
        result
  | _ => result

/-- DeviceManager._command_map: the per-device command lookup table,
built from the metadata command lists then logical-action mappings. -/
def commandMap (d : Device) : List (String × CmdDict) :=
  let md := d.metadata
  let ingest (acc : List (String × CmdDict)) (key : String) : List (String × CmdDict) :=
    match jget md key with
    | some (.arr entries) => entries.foldl ingestEntry acc
    | _ => acc
  let r := ingest (ingest (ingest (ingest [] "ble_commands") "classic_commands")
    "network_commands") "samsung_commands"
  applyMapping (applyMapping r (jget md "ble_commands_map")) (jget md "command_map")

/-- Transport validation of DeviceManager.send_command (before any
transport I/O): looks the command up in the per-device table and checks
the device supports the command's transport; returns the transport that
execution will use. -/
def sendCommandAction (d : Device) (commandId : String) : Except String (String × CmdDict) :=
  match alookup (commandMap d) commandId with
  | none => .error "Command not configured for device"
  | some command =>
      let transport := pyLower (jgetStrOr command "transport" "ble")
      if transport = "ble" ∨ transport = "rfcomm" then
        if ¬("bluetooth" ∈ d.protocols) then .error "Device does not support Bluetooth commands"
        else if addrMissing d.address then .error "Bluetooth device missing address"
        else .ok (transport, command)
      else if transport = "samsung" then
        let hasProto := "samsung" ∈ d.protocols ∨ "smartview" ∈ d.protocols
        let hasMeta := ¬d.metadata.isEmpty ∧
          ((jget d.metadata "samsung_token").isSome ∨ (jget d.metadata "samsung_client_id").isSome ∨
           (jget d.metadata "smartview_token").isSome ∨ (jget d.metadata "samsung_ip").isSome)
        if ¬(hasProto ∨ hasMeta) then .error "Device does not support Samsung SmartView commands"
        else .ok (transport, command)
      else .error "Unsupported command transport"

/-- Post-execution bookkeeping of DeviceManager.send_command: record the
last-command audit entry (the structured-json variant of the samsung
response is abstracted to its hex form) and apply the power-state rules
keyed purely on the lowercased command id. -/
def sendCommandFinalize (d : Device) (commandId transport : String) (response : List Nat)
    (now : String) : Device :=
  let md := d.metadata
  let lastEntry : CmdDict := [("id", .str commandId), ("at", .str now), ("transport", .str transport)]
  let lastEntry :=
    if response.isEmpty then lastEntry
    else jset (jset lastEntry "response_len" (.int response.length))
      "response_hex" (.str (hexOfBytes response))
  let md := jset md "last_command" (.obj lastEntry)
  let cidLower := pyLower commandId
  let (md, status) :=
    if cidLower = "power_off" then (jset md "is_on" (.bool false), "offline")
    else if cidLower = "power_on" then (jset md "is_on" (.bool true), "online")
    else if cidLower = "power_toggle" then
      let current :=
        match jget md "is_on" with
        | some v => v.truthy
        | none => d.status == "online"
      (jset md "is_on" (.bool !current), if !current then "online" else "offline")
    else (md, d.status)
  let status := if status = "online" ∨ status = "offline" then status else "online"
  { d with metadata := md, status := status, last_seen := now }

/-- DeviceManager.send_command with transport execution abstracted: on a
successful exchange yielding `response`, the device is updated by
`sendCommandFinalize`; every validation failure is surfaced as an
error. -/
def sendCommand (d : Device) (commandId : String) (response : List Nat) (now : String) :
    Except String Device :=
  match sendCommandAction d commandId with
  | .error e => .error e
  | .ok (transport, _) => .ok (sendCommandFinalize d commandId transport response now)

/-- Validation of DeviceManager.execute_inline_command (before any
transport I/O): defaults the id, normalizes the inline specification and
checks the device supports the transport. -/
def executeInlineCheck (d : Device) (payload : CmdDict) : Except String (String × CmdDict) :=
  let inlineSpec := jset payload "id" (pyOrJ (jget payload "id") (JVal.str "__inline__"))
  match normalizeCommandSpec inlineSpec with
  | .error e => .error ("Invalid command specification: " ++ e)
  | .ok normalized =>
      let transport := pyLower (jgetStrOr normalized "transport" "ble")
      if transport = "ble" ∨ transport = "rfcomm" then
        if ¬("bluetooth" ∈ d.protocols) then .error "Device does not support Bluetooth commands"
        else if addrMissing d.address then .error "Bluetooth device missing address"
        else .ok (transport, normalized)
      else if transport = "samsung" then
        if ¬("samsung" ∈ d.protocols ∨ "smartview" ∈ d.protocols) then
          .error "Device does not support Samsung SmartView commands"
        else .ok (transport, normalized)
      else .error "Unsupported command transport"

end DeviceManager

/-- Record tracking one asynchronous pairing job. -/
structure JobRecord where
  status : String
  device_id : Option String
  error : Option String
  traceback : Option String
  started_at : String
  finished_at : Option String

namespace DeviceManager

/-- DeviceManager.start_pairing_job, synchronous part: insert a fresh
`pending` record under the new job id and return the id at once, before
any pairing work runs. -/
def startPairingJob (jobs : List (String × JobRecord)) (jobId : String) (startedAt : String) :
    String × List (String × JobRecord) :=
  (jobId,
    assocSet jobs jobId
      { status := "pending", device_id := none, error := none, traceback := none,
        started_at := startedAt, finished_at := none })

/-- Terminal update of the background `_job` task: `success` keeps the
resulting device id, `failed` keeps the error text and traceback, and
the `finally` block always sets the finish timestamp. -/
def jobFinish (r : JobRecord) (outcome : Except String Device) (finishedAt tb : String) :
    JobRecord :=
  match outcome with
  | .ok device =>
      { r with status := "success", device_id := some device.id, finished_at := some finishedAt }
  | .error e =>
      { r with
        status := "failed", error := some e, traceback := some tb,
        finished_at := some finishedAt }

/-- Successive states of one job record: created `pending`, moved to
`in-progress` by the scheduled task, then finished. -/
def jobStates (r : JobRecord) (outcome : Except String Device) (finishedAt tb : String) :
    List JobRecord :=
  let inProgress := { r with status := "in-progress" }
  [r, inProgress, jobFinish inProgress outcome finishedAt tb]

/-- Forward order on job statuses. -/
def statusRank (s : String) : Nat :=
  if s = "pending" then 0
  else if s = "in-progress" then 1
  else 2

/-- DeviceManager.get_pairing_job: plain lookup, `None` on unknown id. -/
def getPairingJob (jobs : List (String × JobRecord)) (jobId : String) : Option JobRecord :=
  alookup jobs jobId

end DeviceManager

namespace DeviceManager

/-- The channel borne by one raw service record: skipped when missing,
`None`, or unparsable as an integer. -/
def serviceChannel (service : List (String × JVal)) : Option Int :=
  match jget service "rfcomm_channel" with
  | some .null => none
  | some v => pyToInt v
  | none => none

/-- Whether one raw service record matches the identifier: service name
or provider (exact or substring), class-id label/UUID (exact), or any
listed UUID (exact). -/
def serviceMatches (ident : String) (service : List (String × JVal)) : Bool :=
  let name := pyLower (pyStrip (jgetStrOr service "name" ""))
  if name ≠ "" ∧ (ident = name ∨ containsSub name ident) then true
  else
    let provider := pyLower (pyStrip (jgetStrOr service "provider" ""))
    if provider ≠ "" ∧ (ident = provider ∨ containsSub provider ident) then true
    else
      let classIds :=
        match jget service "class_ids" with
        | some (.arr xs) => xs
        | _ => []
      if classIds.any (fun cls =>
          match cls with
          | .obj c =>
              let label := pyLower (pyStrip (jgetStrOr c "label" ""))
              let uuid := pyLower (pyStrip (jgetStrOr c "uuid" ""))
              ident = label ∨ ident = uuid
          | _ => false) then true
      else
        let uuids :=
          match jget service "uuids" with
          | some (.arr xs) => xs
          | _ => []
        uuids.any (fun u => ident = pyLower (pyStrip (JVal.pyStr (pyOrJ (some u) (JVal.str "")))))

/-- Linear scan of the raw service records: first record with a parsable
channel that matches the identifier wins. -/
def scanServices (ident : String) : List JVal → Option Int
  | [] => none
  | s :: rest =>
      match s with
      | .obj service =>
          match serviceChannel service with
          | none => scanServices ident rest
          | some ch => if serviceMatches ident service then some ch else scanServices ident rest
      | _ => scanServices ident rest

/-- The `capabilities.classic` summary of a device,
`capabilities.get("classic") or empty`. -/
def classicCaps (d : Device) : List (String × JVal) :=
  match jget d.capabilities "classic" with
  | some (.obj kvs) => kvs
  | _ => []

/-- The UUID/name to channel map, `classic.get("rfcomm_channels") or empty`. -/
def classicChannels (d : Device) : List (String × JVal) :=
  match jget (classicCaps d) "rfcomm_channels" with
  | some (.obj kvs) => kvs
  | _ => []

/-- The raw service records, `classic.get("services") or empty`. -/
def classicServices (d : Device) : List JVal :=
  match jget (classicCaps d) "services" with
  | some (.arr xs) => xs
  | _ => []

/-- DeviceManager._resolve_rfcomm_channel: exact lookup in the
capability channel map first (an unparsable bound value yields `None`
without falling through), else the linear service scan; `None`, never an
error, when nothing matches. -/
def resolveRfcommChannel (d : Device) (identifier : String) : Option Int :=
  let ident := pyLower (pyStrip identifier)
  if ident = "" then none
  else
    match jget (classicChannels d) ident with
    | some v => pyToInt v
    | none => scanServices ident (classicServices d)

end DeviceManager

/-- One outcome of `sock.recv` in the RFCOMM read loop: a data chunk
(empty means the peer closed / no more data), or an expired receive
timeout (an `OSError` in Python). -/
inductive RecvEvent where
  | chunk (bs : List Nat)
  | timeout

/-- Read loop of classic_rfcomm.send_command: accumulate chunks while
fewer than `expect` bytes have arrived; an empty chunk ends the loop
with the partial data; a receive timeout raises `RFCOMMError`. -/
def rfcommRead (expect : Nat) (acc : List Nat) : List RecvEvent → Except String (List Nat)
  | [] => if acc.length < expect then .error "RFCOMM read failed: timed out" else .ok acc
  | e :: rest =>
      if expect ≤ acc.length then .ok acc
      else
        match e with
        | .timeout => .error "RFCOMM read failed: timed out"
        | .chunk bs =>
            let got := bs.take (expect - acc.length)
            if got.isEmpty then .ok acc
            else rfcommRead expect (acc ++ got) rest

/-- classic_rfcomm.send_command, response phase: validate the channel,
return empty bytes when no response is expected, else run the read loop
over the socket's receive events. -/
def rfcommSendCommand (channel : Int) (responseBytes : Int) (events : List RecvEvent) :
    Except String (List Nat) :=
  if channel ≤ 0 ∨ channel > 30 then .error "RFCOMM channel must be between 1 and 30"
  else
    let expect : Int := max 0 responseBytes
    if expect ≤ 0 then .ok []
    else rfcommRead expect.toNat [] events

namespace SamsungRemote

/-- A token-ish value: Python `isinstance(v, (str, int)) and str(v)`
(booleans are ints in Python). -/
def tokenOfVal : JVal → Option String
  | .str s => if s ≠ "" then some s else none
  | .int n => some (toString n)
  | .bool b => some (if b then "True" else "False")
  | _ => none

/-- Same check on an optional dictionary value. -/
def tokenOfOpt : Option JVal → Option String
  | some v => tokenOfVal v
  | none => none

/-- Fallback client-id extraction from `data.clients[].attributes`. -/
def clientToken : List JVal → Option String
  | [] => none
  | c :: rest =>
      match c with
      | .obj client =>
          (match jget client "attributes" with
            | some (.obj attrs) =>
                tokenOfVal (pyOrJ (jget attrs "client_id") (pyOrJ (jget attrs "clientId") JVal.null))
            | _ => none).orElse (fun _ => clientToken rest)
      | _ => clientToken rest

/-- SamsungRemoteController._extract_token: first top-level token, then
`data.token`, then the nested client-id fallback, in message order. -/
def extractToken : List JVal → Option String
  | [] => none
  | m :: rest =>
      match m with
      | .obj entry =>
          (match tokenOfOpt (jget entry "token") with
            | some t => some t
            | none =>
                match jget entry "data" with
                | some (.obj data) =>
                    (match tokenOfOpt (jget data "token") with
                      | some t => some t
                      | none =>
                          match jget data "clients" with
                          | some (.arr clients) => clientToken clients
                          | _ => none)
                | _ => none).orElse (fun _ => extractToken rest)
      | _ => extractToken rest

/-- SamsungRemoteController._first_error: first message whose `data`
carries a non-empty string message with an authorization failure
signalled in the code or the message text. -/
def firstError : List JVal → Option String
  | [] => none
  | m :: rest =>
      match m with
      | .obj entry =>
          (match jget entry "data" with
            | some (.obj data) =>
                match pyOrJ (jget data "message") (pyOrJ (jget data "status_message") JVal.null) with
                | .str s =>
                    let code := pyLower (jgetStrOr data "code" "")
                    if containsSub code "unauthorized" ∨ containsSub code "forbidden" ∨
                        containsSub code "denied" then some s
                    else if containsSub (pyLower s) "denied" ∨ containsSub (pyLower s) "unauthorized" ∨
                        containsSub (pyLower s) "forbidden" then some s
                    else none
                | _ => none
            | _ => none).orElse (fun _ => firstError rest)
      | _ => firstError rest

/-- A frame written to the SmartView websocket. -/
inductive SKFrame where
  | connect
  | key (payload : JVal)

/-- SamsungRemoteController._build_key_payload. -/
def buildKeyPayload (key action remoteType : String) (optionVal : JVal) : JVal :=
  let optionValue :=
    match optionVal with
    | .bool b => if b then "true" else "false"
    | v => v.pyStr
  .obj [("method", .str "ms.remote.control"),
    ("params", .obj
      [("Cmd", .str action), ("DataOfCmd", .str key),
       ("Option", .str optionValue), ("TypeOfRemote", .str remoteType)])]

/-- Observable outcome of one SamsungRemoteController.send_key call:
frames written to the socket, the returned result fields, and whether
the session is marked handshake-complete afterwards. -/
structure SendKeyOutcome where
  sent : List SKFrame
  token : Option String
  messages : List JVal
  error : Option String
  connectedAfter : Bool

/-- SamsungRemoteController.send_key over an already-open socket, with
the inbound frames of the handshake drain and of the acknowledgement
drain given as `handshake` and `acks`: when the handshake has not yet
run, its drained messages are inspected and an `unauthorized` error
returns before any key frame is written and without marking the session
connected. -/
def sendKey (connected : Bool) (handshake acks : List JVal) (key action remoteType : String)
    (optionVal : JVal) (repeatCount : Int) : SendKeyOutcome :=
  let payload := buildKeyPayload key action remoteType optionVal
  let total := (max repeatCount 1).toNat
  if !connected then
    let tok := extractToken handshake
    let err := firstError handshake
    let unauthorized :=
      match err with
      | some m => containsSub (pyLower m) "unauthorized"
      | none => false
    if unauthorized then
      { sent := [.connect], token := tok, messages := handshake, error := err,
        connectedAfter := false }
    else
      { sent := .connect :: List.replicate total (.key payload),
        token := (tok.orElse (fun _ => extractToken acks)),
        messages := handshake ++ acks,
        error := (err.orElse (fun _ => firstError acks)),
        connectedAfter := true }
  else
    { sent := List.replicate total (.key payload),
      token := extractToken acks,
      messages := acks,
      error := firstError acks,
      connectedAfter := true }

end SamsungRemote

/-! Helper lemmas shared across the claim theorems. -/

theorem alookup_assocSet {α : Type} (m : List (String × α)) (k k2 : String) (v : α) :
    alookup (assocSet m k v) k2 = if k2 = k then some v else alookup m k2 := by
  induction m with
  | nil =>
      by_cases h : k = k2
      · subst h; simp [assocSet, alookup]
      · have h2 : ¬(k2 = k) := fun he => h he.symm
        simp [assocSet, alookup, h, h2]
  | cons hd tl ih =>
      obtain ⟨k0, v0⟩ := hd
      by_cases hk : k0 = k
      · subst hk
        by_cases h2 : k0 = k2
        · subst h2; simp [assocSet, alookup]
        · have h3 : ¬(k2 = k0) := fun he => h2 he.symm
          simp [assocSet, alookup, h2, h3]
      · by_cases h2 : k0 = k2
        · subst h2
          have h3 : ¬(k0 = k) := hk
          simp [assocSet, if_neg hk, alookup, h3]
        · simp only [assocSet, if_neg hk, alookup, if_neg h2]
          exact ih

theorem jget_jset (m : List (String × JVal)) (k k2 : String) (v : JVal) :
    jget (jset m k v) k2 = if k2 = k then some v else jget m k2 :=
  alookup_assocSet m k k2 v

theorem alookup_eq_none_of_not_mem_keys {α : Type} (m : List (String × α)) (k : String)
    (h : k ∉ m.map Prod.fst) : alookup m k = none := by
  induction m with
  | nil => rfl
  | cons hd tl ih =>
      simp only [List.map_cons, List.mem_cons] at h
      push_neg at h
      simp [alookup, h.1.symm, ih h.2]

theorem mem_sortedSet (xs : List String) (a : String) : a ∈ sortedSet xs ↔ a ∈ xs := by
  unfold sortedSet
  rw [List.mem_mergeSort, List.mem_dedup]

/-! C7: serial-channel resolution. -/

/-- C7: serial-channel resolution tries the exact UUID/name map first
(the bound channel is returned whatever the service records say), falls
back to the linear service scan only on a map miss, where the first
record with a parsable channel matching the identifier wins, and an
unmatched identifier resolves to `none` rather than an error; in the
concrete scenario, the map entry binding UUID 0000110b-... to 3 wins
over the raw AVRCP service, while the substring "avrcp" resolves to the
raw service channel 5 and an unknown identifier resolves to `none`. -/
theorem c7_resolve_channel :
    (∀ (d : Device) (identifier : String) (v : JVal) (n : Int),
      pyLower (pyStrip identifier) ≠ "" →
      jget (DeviceManager.classicChannels d) (pyLower (pyStrip identifier)) = some v →
      pyToInt v = some n →
      DeviceManager.resolveRfcommChannel d identifier = some n) ∧
    (∀ (d : Device) (identifier : String),
      pyLower (pyStrip identifier) ≠ "" →
      jget (DeviceManager.classicChannels d) (pyLower (pyStrip identifier)) = none →
      DeviceManager.resolveRfcommChannel d identifier =
        DeviceManager.scanServices (pyLower (pyStrip identifier)) (DeviceManager.classicServices d)) ∧
    (∀ (ident : String) (service : List (String × JVal)) (rest : List JVal) (ch : Int),
      DeviceManager.serviceChannel service = some ch →
      DeviceManager.serviceMatches ident service = true →
      DeviceManager.scanServices ident (JVal.obj service :: rest) = some ch) ∧
    (∀ ident : String, DeviceManager.scanServices ident [] = none) ∧
    (∀ d : Device,
      d.capabilities =
        [("classic", JVal.obj
          [("rfcomm_channels", JVal.obj [("0000110b-0000-1000-8000-00805f9b34fb", JVal.int 3)]),
           ("services", JVal.arr [JVal.obj
             [("name", JVal.str "AVRCP Target"), ("rfcomm_channel", JVal.int 5)]])])] →
      DeviceManager.resolveRfcommChannel d "0000110b-0000-1000-8000-00805f9b34fb" = some 3 ∧
      DeviceManager.resolveRfcommChannel d "avrcp" = some 5 ∧
      DeviceManager.resolveRfcommChannel d "no-such-service" = none) := by
  refine ⟨?_, ?_, ?_, ?_, ?_⟩
  · intro d identifier v n h1 h2 h3
    unfold DeviceManager.resolveRfcommChannel
    rw [if_neg h1, h2]
    exact h3
  · intro d identifier h1 h2
    unfold DeviceManager.resolveRfcommChannel
    rw [if_neg h1, h2]
  · intro ident service rest ch h1 h2
    simp [DeviceManager.scanServices, h1, h2]
  · intro ident; rfl
  · intro d hcaps
    unfold DeviceManager.resolveRfcommChannel DeviceManager.classicChannels
      DeviceManager.classicServices DeviceManager.classicCaps
    rw [hcaps]
    refine ⟨rfl, rfl, rfl⟩

/-- Witness discharging the hypotheses of c7_resolve_channel at concrete
inputs. -/
theorem c7_resolve_channel_witness :
    DeviceManager.resolveRfcommChannel
      { id := "d", name := "n", type := "t", room := "r", protocols := [], integrations := [],
        capabilities :=
          [("classic", JVal.obj
            [("rfcomm_channels", JVal.obj [("0000110b-0000-1000-8000-00805f9b34fb", JVal.int 3)]),
             ("services", JVal.arr [JVal.obj
               [("name", JVal.str "AVRCP Target"), ("rfcomm_channel", JVal.int 5)]])])] }
      "avrcp" = some 5 :=
  ((c7_resolve_channel.2.2.2.2
    { id := "d", name := "n", type := "t", room := "r", protocols := [], integrations := [],
      capabilities :=
        [("classic", JVal.obj
          [("rfcomm_channels", JVal.obj [("0000110b-0000-1000-8000-00805f9b34fb", JVal.int 3)]),
           ("services", JVal.arr [JVal.obj
             [("name", JVal.str "AVRCP Target"), ("rfcomm_channel", JVal.int 5)]])])] }
    rfl).2.1)

/-! C8: RFCOMM read loop. -/

theorem rfcommRead_length_le (evs : List RecvEvent) :
    ∀ (expect : Nat) (acc bs : List Nat), acc.length ≤ expect →
      rfcommRead expect acc evs = .ok bs → bs.length ≤ expect := by
  induction evs with
  | nil =>
      intro expect acc bs hacc h
      unfold rfcommRead at h
      split at h
      · exact absurd h (by simp)
      · cases h; exact hacc
  | cons e rest ih =>
      intro expect acc bs hacc h
      unfold rfcommRead at h
      split at h
      · cases h; exact hacc
      · cases e with
        | timeout => exact absurd h (by simp)
        | chunk cs =>
            simp only at h
            split at h
            · cases h; exact hacc
            · refine ih expect _ bs ?_ h
              rw [List.length_append, List.length_take]
              omega

/-- C8 (amended): with expected length n at most 0 the response is empty;
a successful read never exceeds n bytes; an empty receive (socket yields
no data) ends the loop returning the partial bytes as-is — not an
error; but an expired receive timeout raises an RFCOMM error instead of
returning the bytes read so far. -/
theorem c8_rfcomm_read :
    (∀ (ch rb : Int) (evs : List RecvEvent),
      1 ≤ ch → ch ≤ 30 → rb ≤ 0 → rfcommSendCommand ch rb evs = .ok []) ∧
    (∀ (ch rb : Int) (evs : List RecvEvent) (bs : List Nat),
      rfcommSendCommand ch rb evs = .ok bs → bs.length ≤ rb.toNat) ∧
    (∀ (expect : Nat) (acc : List Nat) (rest : List RecvEvent),
      rfcommRead expect acc (RecvEvent.chunk [] :: rest) = .ok acc) ∧
    (∀ (expect : Nat) (acc : List Nat) (rest : List RecvEvent), acc.length < expect →
      rfcommRead expect acc (RecvEvent.timeout :: rest) =
        .error "RFCOMM read failed: timed out") := by
  refine ⟨?_, ?_, ?_, ?_⟩
  · intro ch rb evs h1 h2 h3
    unfold rfcommSendCommand
    rw [if_neg (by omega), if_pos (by omega)]
  · intro ch rb evs bs h
    simp only [rfcommSendCommand] at h
    split at h
    · exact absurd h (by simp)
    · split at h
      · cases h; simp
      · have := rfcommRead_length_le evs (max 0 rb).toNat [] bs (by simp) h
        omega
  · intro expect acc rest
    unfold rfcommRead
    split
    · rfl
    · simp
  · intro expect acc rest h
    unfold rfcommRead
    rw [if_neg (by omega)]

/-- Counterexample to C8 as stated: with expected length 2 and a receive
timeout before any data, the read does not return the empty partial
response as-is; it fails with an RFCOMM error. -/
theorem c8_timeout_counterexample :
    rfcommSendCommand 1 2 [RecvEvent.timeout] = .error "RFCOMM read failed: timed out" ∧
    (rfcommSendCommand 1 2 [RecvEvent.timeout]).isOk = false :=
  ⟨rfl, rfl⟩

/-- Witness discharging the hypotheses of c8_rfcomm_read at concrete
inputs. -/
theorem c8_rfcomm_read_witness : rfcommSendCommand 5 0 [] = .ok [] :=
  c8_rfcomm_read.1 5 0 [] (by decide) (by decide) (by decide)

/-! C9: unauthorized Samsung handshake aborts before the key frame. -/

/-- C9: when the drained handshake frames carry an `unauthorized` error,
send_key returns that message as the result error, writes only the
connect frame (never the key-press frame), and does not mark the
session's handshake complete. -/
theorem c9_unauthorized_handshake (handshake acks : List JVal)
    (key action rt : String) (ov : JVal) (rc : Int) (m : String)
    (herr : SamsungRemote.firstError handshake = some m)
    (hunauth : containsSub (pyLower m) "unauthorized" = true) :
    (SamsungRemote.sendKey false handshake acks key action rt ov rc).error = some m ∧
    (SamsungRemote.sendKey false handshake acks key action rt ov rc).sent =
      [SamsungRemote.SKFrame.connect] ∧
    (SamsungRemote.sendKey false handshake acks key action rt ov rc).connectedAfter = false := by
  refine ⟨?_, ?_, ?_⟩ <;> simp [SamsungRemote.sendKey, herr, hunauth]

/-- Witness discharging the hypotheses of c9_unauthorized_handshake at a
concrete handshake. -/
theorem c9_unauthorized_handshake_witness :
    (SamsungRemote.sendKey false
      [JVal.obj [("data", JVal.obj [("message", JVal.str "unauthorized")])]]
      [] "KEY_MENU" "Click" "SendRemoteKey" (JVal.str "false") 1).sent =
      [SamsungRemote.SKFrame.connect] :=
  (c9_unauthorized_handshake
    [JVal.obj [("data", JVal.obj [("message", JVal.str "unauthorized")])]]
    [] "KEY_MENU" "Click" "SendRemoteKey" (JVal.str "false") 1 "unauthorized"
    rfl rfl).2.1

/-! C10: power-state mutation keyed on the command id. -/

/-- C10: a successful send_command mutates the power state purely from
the lowercased command id — `power_on` sets is_on true and status
online, `power_off` sets is_on false and status offline, `power_toggle`
inverts the current is_on (defaulting to whether the status was online)
and sets the status accordingly — for every transport and response; any
other command id leaves is_on unchanged. -/
theorem c10_power_commands (d : Device) (cid : String) (response : List Nat) (now : String)
    (d2 : Device) (h : DeviceManager.sendCommand d cid response now = .ok d2) :
    (pyLower cid = "power_on" →
      jget d2.metadata "is_on" = some (JVal.bool true) ∧ d2.status = "online") ∧
    (pyLower cid = "power_off" →
      jget d2.metadata "is_on" = some (JVal.bool false) ∧ d2.status = "offline") ∧
    (pyLower cid = "power_toggle" →
      jget d2.metadata "is_on" =
        some (JVal.bool (!(match jget d.metadata "is_on" with
          | some v => v.truthy
          | none => d.status == "online"))) ∧
      d2.status = (if (match jget d.metadata "is_on" with
          | some v => v.truthy
          | none => d.status == "online") then "offline" else "online")) ∧
    (pyLower cid ≠ "power_on" → pyLower cid ≠ "power_off" → pyLower cid ≠ "power_toggle" →
      jget d2.metadata "is_on" = jget d.metadata "is_on") := by
  have hd2 : ∃ t cmd, DeviceManager.sendCommandAction d cid = .ok (t, cmd) ∧
      d2 = DeviceManager.sendCommandFinalize d cid t response now := by
    unfold DeviceManager.sendCommand at h
    split at h
    · exact absurd h (by simp)
    · rename_i t cmd heq
      exact ⟨t, cmd, heq, by cases h; rfl⟩
  obtain ⟨t, cmd, -, rfl⟩ := hd2
  have hoffon : ("offline" : String) = "online" ∨ ("offline" : String) = "offline" := by
    right; rfl
  refine ⟨?_, ?_, ?_, ?_⟩
  · intro hcid
    simp only [DeviceManager.sendCommandFinalize, hcid]
    have h1 : (("power_on" : String) = "power_off") = False := by simp
    simp [h1, jget_jset]
  · intro hcid
    simp only [DeviceManager.sendCommandFinalize, hcid]
    simp [jget_jset]
  · intro hcid
    simp only [DeviceManager.sendCommandFinalize, hcid]
    have h1 : (("power_toggle" : String) = "power_off") = False := by simp
    have h2 : (("power_toggle" : String) = "power_on") = False := by simp
    have h3 : jget (jset d.metadata "last_command"
        (JVal.obj (if response.isEmpty then
          [("id", JVal.str cid), ("at", JVal.str now), ("transport", JVal.str t)]
        else jset (jset [("id", JVal.str cid), ("at", JVal.str now), ("transport", JVal.str t)]
          "response_len" (JVal.int response.length))
          "response_hex" (JVal.str (hexOfBytes response))))) "is_on" =
        jget d.metadata "is_on" := by
      rw [jget_jset]; simp
    rcases hj : jget d.metadata "is_on" with - | v
    · simp only [h1, h2, jget_jset, hj] at h3 ⊢
      by_cases hon : d.status == "online" <;>
        simp [h1, h2, jget_jset, h3, hj, hon]
    · simp only [h1, h2] at h3 ⊢
      by_cases htr : v.truthy <;>
        simp [h1, h2, jget_jset, h3, hj, htr]
  · intro hn1 hn2 hn3
    simp only [DeviceManager.sendCommandFinalize]
    simp [hn1, hn2, hn3, jget_jset]

/-- Witness discharging the hypotheses of c10_power_commands on a
concrete device with a stored power_on command. -/
theorem c10_power_commands_witness :
    jget ((DeviceManager.sendCommand
      { id := "d", name := "n", type := "Display", room := "r", protocols := ["bluetooth"],
        integrations := [], address := some "AA:BB:CC:DD:EE:FF",
        metadata := [("ble_commands", JVal.arr
          [JVal.obj [("id", JVal.str "power_on"), ("characteristic", JVal.str "c")]])] }
      "power_on" [] "now").toOption.getD
      { id := "d", name := "n", type := "Display", room := "r", protocols := ["bluetooth"],
        integrations := [] }).metadata "is_on" = some (JVal.bool true) :=
  ((c10_power_commands
    { id := "d", name := "n", type := "Display", room := "r", protocols := ["bluetooth"],
      integrations := [], address := some "AA:BB:CC:DD:EE:FF",
      metadata := [("ble_commands", JVal.arr
        [JVal.obj [("id", JVal.str "power_on"), ("characteristic", JVal.str "c")]])] }
    "power_on" [] "now" _ rfl).1 rfl).1

/-! C5: persist/load round-trip of the device map. -/

/-- C5: persisting a device map and loading it back succeeds (the
version matches) and reproduces an equivalent map: the same ids in
order, and per device the same field values, with the protocol and
integration tags equal as sets and the serialized top-level
paired/trusted flags equal to the booleans derived from metadata. -/
theorem c5_store_roundtrip (ds : List Device) (savedAt : String) :
    loadDevices (persistDevices ds savedAt) =
      some (ds.map (fun d => (d.id, Device.fromDict d.toDict))) ∧
    ((persistDevices ds savedAt).devices.map DeviceDict.id) = ds.map Device.id ∧
    (∀ d : Device,
      (Device.fromDict d.toDict).id = d.id ∧
      (Device.fromDict d.toDict).name = d.name ∧
      (Device.fromDict d.toDict).type = d.type ∧
      (Device.fromDict d.toDict).room = d.room ∧
      (Device.fromDict d.toDict).status = d.status ∧
      (Device.fromDict d.toDict).last_seen = d.last_seen ∧
      (Device.fromDict d.toDict).firmware = d.firmware ∧
      (Device.fromDict d.toDict).address = d.address ∧
      (Device.fromDict d.toDict).metadata = d.metadata ∧
      (Device.fromDict d.toDict).capabilities = d.capabilities ∧
      (∀ p, p ∈ (Device.fromDict d.toDict).protocols ↔ p ∈ d.protocols) ∧
      (∀ i, i ∈ (Device.fromDict d.toDict).integrations ↔ i ∈ d.integrations) ∧
      d.toDict.paired = metaFlag d.metadata "paired" ∧
      d.toDict.trusted = metaFlag d.metadata "trusted") := by
  refine ⟨?_, by simp [persistDevices, Device.toDict], ?_⟩
  · simp only [loadDevices, persistDevices, STATE_VERSION]
    rw [List.map_map]
    simp only [if_true]
    rfl
  intro d
  refine ⟨rfl, rfl, rfl, rfl, rfl, rfl, rfl, rfl, rfl, rfl, ?_, ?_, rfl, rfl⟩
  · intro p; exact mem_sortedSet d.protocols p
  · intro i; exact mem_sortedSet d.integrations i

/-! C6: pairing-job lifecycle. -/

theorem normalizeBtAddress_error (s e : String)
    (h : DeviceManager.normalizeBtAddress s = .error e) :
    e = "Bluetooth address required" ∨
    e = "Bluetooth address must be 12 hex characters (e.g. AA:BB:CC:DD:EE:FF)" := by
  unfold DeviceManager.normalizeBtAddress at h
  split at h
  · cases h; exact Or.inl rfl
  · split at h
    · cases h; exact Or.inr rfl
    · exact absurd h (fun hc => Except.noConfusion hc)

theorem pairStepMd_error (md : List (String × JVal)) (pairTrust : Except String Unit)
    (now e : String) (h : DeviceManager.pairStepMd md pairTrust now = .error e) :
    ∃ e2, e = "Pairing failed: " ++ e2 := by
  unfold DeviceManager.pairStepMd at h
  split at h
  · cases pairTrust with
    | ok u => exact absurd h (fun hc => Except.noConfusion hc)
    | error e2 =>
        cases h
        exact ⟨e2, rfl⟩
  · exact absurd h (fun hc => Except.noConfusion hc)

theorem pairBluetooth_error_nonempty (devices : List (String × Device))
    (payload : DeviceManager.PairPayload) (pairTrust : Except String Unit)
    (caps : List (String × JVal)) (now e : String)
    (h : DeviceManager.pairBluetoothDevice devices payload pairTrust caps now = .error e) :
    e ≠ "" := by
  simp only [DeviceManager.pairBluetoothDevice] at h
  split at h
  · cases h; decide
  · split at h
    · rename_i e0 hnorm
      cases h
      rcases normalizeBtAddress_error _ _ hnorm with h1 | h1 <;> subst h1 <;> decide
    · split at h
      · rename_i e1 hstep
        cases h
        obtain ⟨e2, rfl⟩ := pairStepMd_error _ _ _ _ hstep
        intro hcon
        have hdata := congrArg String.data hcon
        rw [String.data_append] at hdata
        have h2 := List.append_eq_nil.mp hdata
        exact absurd (congrArg String.mk h2.1) (by decide)
      · exact absurd h (fun hc => Except.noConfusion hc)

/-- C6: starting a pairing job creates its record in state pending under
the returned id before any work runs; the record's states move only
forward (pending, in-progress, terminal); a success record carries the
resulting device id and a failed record the error text, with the finish
timestamp always set; errors surfaced by the pairing itself are never
empty; and querying an unknown job id returns none. -/
theorem c6_pairing_job_lifecycle :
    (∀ (jobs : List (String × JobRecord)) (jobId startedAt : String),
      DeviceManager.getPairingJob (DeviceManager.startPairingJob jobs jobId startedAt).2
          (DeviceManager.startPairingJob jobs jobId startedAt).1 =
        some { status := "pending", device_id := none, error := none, traceback := none,
               started_at := startedAt, finished_at := none }) ∧
    (∀ (r : JobRecord) (outcome : Except String Device) (tFin tb : String),
      r.status = "pending" →
      List.Chain'
        (fun a b => DeviceManager.statusRank a.status ≤ DeviceManager.statusRank b.status)
        (DeviceManager.jobStates r outcome tFin tb)) ∧
    (∀ (r : JobRecord) (dv : Device) (tFin tb : String),
      (DeviceManager.jobFinish r (.ok dv) tFin tb).status = "success" ∧
      (DeviceManager.jobFinish r (.ok dv) tFin tb).device_id = some dv.id ∧
      (DeviceManager.jobFinish r (.ok dv) tFin tb).finished_at = some tFin) ∧
    (∀ (r : JobRecord) (e tFin tb : String),
      (DeviceManager.jobFinish r (.error e) tFin tb).status = "failed" ∧
      (DeviceManager.jobFinish r (.error e) tFin tb).error = some e ∧
      (DeviceManager.jobFinish r (.error e) tFin tb).finished_at = some tFin) ∧
    (∀ (devices : List (String × Device)) (payload : DeviceManager.PairPayload)
        (pairTrust : Except String Unit) (caps : List (String × JVal)) (now e : String),
      DeviceManager.pairBluetoothDevice devices payload pairTrust caps now = .error e →
      e ≠ "") ∧
    (∀ (jobs : List (String × JobRecord)) (jobId : String),
      jobId ∉ jobs.map Prod.fst → DeviceManager.getPairingJob jobs jobId = none) := by
  refine ⟨?_, ?_, ?_, ?_, ?_, ?_⟩
  · intro jobs jobId startedAt
    simp only [DeviceManager.startPairingJob, DeviceManager.getPairingJob]
    rw [alookup_assocSet]
    simp
  · intro r outcome tFin tb hpend
    cases outcome <;>
      simp [DeviceManager.jobStates, DeviceManager.jobFinish, DeviceManager.statusRank, hpend]
  · intro r dv tFin tb
    exact ⟨rfl, rfl, rfl⟩
  · intro r e tFin tb
    exact ⟨rfl, rfl, rfl⟩
  · exact pairBluetooth_error_nonempty
  · intro jobs jobId h
    exact alookup_eq_none_of_not_mem_keys jobs jobId h

/-- Witness discharging the hypotheses of c6_pairing_job_lifecycle at
concrete inputs. -/
theorem c6_pairing_job_lifecycle_witness :
    List.Chain'
      (fun a b => DeviceManager.statusRank a.status ≤ DeviceManager.statusRank b.status)
      (DeviceManager.jobStates
        { status := "pending", device_id := none, error := none, traceback := none,
          started_at := "t0", finished_at := none }
        (.error "Bluetooth address required for pairing") "t1" "tb") ∧
    ("Bluetooth address required for pairing" : String) ≠ "" ∧
    DeviceManager.getPairingJob [] "missing" = none :=
  ⟨c6_pairing_job_lifecycle.2.1
      { status := "pending", device_id := none, error := none, traceback := none,
        started_at := "t0", finished_at := none }
      (.error "Bluetooth address required for pairing") "t1" "tb" rfl,
   c6_pairing_job_lifecycle.2.2.2.2.1 [] {} (.ok ()) [] "now"
      "Bluetooth address required for pairing" rfl,
   c6_pairing_job_lifecycle.2.2.2.2.2 [] "missing" (by simp)⟩

/-! C3: command-specification rejection rules. -/

theorem decodePayloadHex_odd (s : String)
    (h : ((removeZeroX s.data).filter (fun c => !isHexSeparator c)).length % 2 = 1) :
    decodePayloadHex s = .error "Hex payload must have an even number of characters" := by
  unfold decodePayloadHex
  rw [if_pos (by omega)]

theorem rfcommLocatorCheck_err (spec : DeviceManager.CmdDict)
    (h1 : jget spec "rfcomm_channel" = none) (h2 : jget spec "service_uuid" = none)
    (h3 : jget spec "service_name" = none) :
    (DeviceManager.rfcommLocatorCheck spec).isOk = false := by
  unfold DeviceManager.rfcommLocatorCheck
  rw [if_pos ⟨by rw [h1]; rfl, by rw [h2]; rfl, by rw [h3]; rfl⟩]
  rfl

theorem rfcommWait_err (raw spec : DeviceManager.CmdDict)
    (h1 : jget spec "rfcomm_channel" = none) (h2 : jget spec "service_uuid" = none)
    (h3 : jget spec "service_name" = none) :
    (DeviceManager.rfcommWait raw spec).isOk = false := by
  unfold DeviceManager.rfcommWait
  cases hv : DeviceManager.fieldPresent (jget raw "wait_ms") with
  | none => exact rfcommLocatorCheck_err spec h1 h2 h3
  | some v =>
      dsimp only
      cases hi : pyToInt v with
      | none => rfl
      | some n =>
          dsimp only
          split
          · rfl
          · refine rfcommLocatorCheck_err _ ?_ ?_ ?_ <;>
              rw [jget_jset, if_neg (by decide)] <;> assumption

theorem rfcommTimeout_err (raw spec : DeviceManager.CmdDict)
    (h1 : jget spec "rfcomm_channel" = none) (h2 : jget spec "service_uuid" = none)
    (h3 : jget spec "service_name" = none) :
    (DeviceManager.rfcommTimeout raw spec).isOk = false := by
  unfold DeviceManager.rfcommTimeout
  cases hv : DeviceManager.fieldPresent (jget raw "response_timeout") with
  | none => exact rfcommWait_err raw spec h1 h2 h3
  | some v =>
      dsimp only
      cases hi : pyToRat v with
      | none => rfl
      | some q =>
          dsimp only
          split
          · rfl
          · refine rfcommWait_err raw _ ?_ ?_ ?_ <;>
              rw [jget_jset, if_neg (by decide)] <;> assumption

theorem rfcommResponse_err (raw spec : DeviceManager.CmdDict)
    (huuid : pyLower (pyStrip (jgetStrOr raw "service_uuid" "")) = "")
    (hname : pyStrip (jgetStrOr raw "service_name" "") = "")
    (h1 : jget spec "rfcomm_channel" = none) (h2 : jget spec "service_uuid" = none)
    (h3 : jget spec "service_name" = none) :
    (DeviceManager.rfcommResponse raw spec).isOk = false := by
  unfold DeviceManager.rfcommResponse
  simp only [huuid, hname, ne_eq, not_true_eq_false, if_false, ite_false]
  cases hv : DeviceManager.fieldPresent (jget raw "response_bytes") with
  | none => exact rfcommTimeout_err raw spec h1 h2 h3
  | some v =>
      dsimp only
      cases hi : pyToInt v with
      | none => rfl
      | some n =>
          dsimp only
          split
          · rfl
          · refine rfcommTimeout_err raw _ ?_ ?_ ?_ <;>
              rw [jget_jset, if_neg (by decide)] <;> assumption

theorem bleFields_err (raw spec : DeviceManager.CmdDict)
    (h : pyLower (pyStrip (jgetStrOr raw "characteristic" "")) = "") :
    DeviceManager.bleFields raw spec = .error "Characteristic missing for BLE command" := by
  unfold DeviceManager.bleFields
  rw [if_pos h]

theorem samsungFields_key_err (raw spec : DeviceManager.CmdDict)
    (h : DeviceManager.rawSamsungKey raw = "") :
    DeviceManager.samsungFields raw spec = .error "Samsung command missing key" := by
  unfold DeviceManager.samsungFields
  rw [if_pos h]

theorem samsungFields_repeat_err (raw spec : DeviceManager.CmdDict) (v : JVal) (n : Int)
    (hv : DeviceManager.fieldPresent (jget raw "repeat") = some v)
    (hn : pyToInt v = some n) (hle : n ≤ 0) :
    (DeviceManager.samsungFields raw spec).isOk = false := by
  unfold DeviceManager.samsungFields
  dsimp only
  by_cases hk : DeviceManager.rawSamsungKey raw = ""
  · rw [if_pos hk]; rfl
  · rw [if_neg hk, hv]
    dsimp only
    rw [hn]
    dsimp only
    rw [if_pos hle]
    rfl

theorem mem_assocSet {α : Type} (m : List (String × α)) (k : String) (v : α) :
    ∀ kv ∈ assocSet m k v, kv = (k, v) ∨ kv ∈ m := by
  induction m with
  | nil => intro kv h; simp [assocSet] at h; exact Or.inl h
  | cons hd tl ih =>
      obtain ⟨k0, v0⟩ := hd
      intro kv h
      unfold assocSet at h
      split at h
      · rcases List.mem_cons.mp h with h2 | h2
        · exact Or.inl h2
        · exact Or.inr (List.mem_cons_of_mem _ h2)
      · rcases List.mem_cons.mp h with h2 | h2
        · exact Or.inr (h2 ▸ List.mem_cons_self _ _)
        · rcases ih kv h2 with h3 | h3
          · exact Or.inl h3
          · exact Or.inr (List.mem_cons_of_mem _ h3)

theorem normalizeCommandList_fold_sound (entries : List JVal)
    (P : DeviceManager.CmdDict → Prop) :
    ∀ acc : List (String × DeviceManager.CmdDict),
    (∀ kv ∈ acc, P kv.2) →
    (∀ (raw : DeviceManager.CmdDict) (spec : DeviceManager.CmdDict),
      JVal.obj raw ∈ entries → DeviceManager.normalizeCommandSpec raw = .ok spec → P spec) →
    ∀ kv ∈ entries.foldl
        (fun acc entry =>
          match entry with
          | JVal.obj raw =>
              match DeviceManager.normalizeCommandSpec raw with
              | .ok spec => assocSet acc (DeviceManager.specId spec) spec
              | .error _ => acc
          | _ => acc)
        acc, P kv.2 := by
  induction entries with
  | nil => intro acc hacc _ kv h; exact hacc kv h
  | cons e rest ih =>
      intro acc hacc hnew kv h
      rw [List.foldl_cons] at h
      refine ih _ ?_ (fun raw spec hm hs => hnew raw spec (List.mem_cons_of_mem _ hm) hs) kv h
      intro kv2 h2
      cases e with
      | obj raw =>
          dsimp only at h2
          cases hs : DeviceManager.normalizeCommandSpec raw with
          | error err => rw [hs] at h2; exact hacc kv2 h2
          | ok spec =>
              rw [hs] at h2
              rcases mem_assocSet acc (DeviceManager.specId spec) spec kv2 h2 with h3 | h3
              · rw [h3]
                exact hnew raw spec (List.mem_cons_self _ _) hs
              · exact hacc kv2 h3
      | null => exact hacc kv2 h2
      | bool b => exact hacc kv2 h2
      | int n => exact hacc kv2 h2
      | rat q => exact hacc kv2 h2
      | str s => exact hacc kv2 h2
      | arr xs => exact hacc kv2 h2

theorem baseSpec_no_locators (raw : DeviceManager.CmdDict) :
    jget (DeviceManager.baseSpec raw) "rfcomm_channel" = none ∧
    jget (DeviceManager.baseSpec raw) "service_uuid" = none ∧
    jget (DeviceManager.baseSpec raw) "service_name" = none := by
  refine ⟨?_, ?_, ?_⟩ <;> simp [DeviceManager.baseSpec, jget, alookup]

theorem normalizeCommandSpec_branch_err (raw : DeviceManager.CmdDict)
    (hbr : (if DeviceManager.rawTransport raw = "ble" then
          DeviceManager.bleFields raw (DeviceManager.baseSpec raw)
        else if DeviceManager.rawTransport raw = "rfcomm" then
          DeviceManager.rfcommFields raw (DeviceManager.baseSpec raw)
        else DeviceManager.samsungFields raw (DeviceManager.baseSpec raw)).isOk = false) :
    (DeviceManager.normalizeCommandSpec raw).isOk = false := by
  unfold DeviceManager.normalizeCommandSpec
  dsimp only
  by_cases hid : DeviceManager.rawCommandId raw = ""
  · rw [if_pos hid]; rfl
  · rw [if_neg hid]
    by_cases htr : ¬(DeviceManager.rawTransport raw = "ble" ∨
        DeviceManager.rawTransport raw = "rfcomm" ∨ DeviceManager.rawTransport raw = "samsung")
    · rw [if_pos htr]; rfl
    · rw [if_neg htr]
      cases hpa : DeviceManager.rawPayloadAscii raw with
      | error e => rfl
      | ok pa =>
          dsimp only
          cases hdec : (if DeviceManager.rawPayloadHex raw ≠ "" then
              (decodePayloadHex (DeviceManager.rawPayloadHex raw)).map (fun _ => ())
            else .ok ()) with
          | error e => rfl
          | ok u =>
              dsimp only
              cases hbranch : (if DeviceManager.rawTransport raw = "ble" then
                  DeviceManager.bleFields raw (DeviceManager.baseSpec raw)
                else if DeviceManager.rawTransport raw = "rfcomm" then
                  DeviceManager.rfcommFields raw (DeviceManager.baseSpec raw)
                else DeviceManager.samsungFields raw (DeviceManager.baseSpec raw)) with
              | error e => rfl
              | ok spec => rw [hbranch] at hbr; exact Bool.noConfusion hbr

/-- C3: command-spec normalization rejects a BLE spec without a
characteristic, an RFCOMM spec with none of channel/service-UUID/service
name, a Samsung spec without a key code, any spec whose cleaned hex
payload has odd length, and a Samsung spec whose repeat parses to a
value at most 0; and everything stored by the list normalizer is the
successful normalization of one of its dict entries — a rejected spec is
never stored. -/
theorem c3_command_spec_rejections :
    (∀ raw : DeviceManager.CmdDict,
      DeviceManager.rawTransport raw = "ble" →
      pyLower (pyStrip (jgetStrOr raw "characteristic" "")) = "" →
      (DeviceManager.normalizeCommandSpec raw).isOk = false) ∧
    (∀ raw : DeviceManager.CmdDict,
      DeviceManager.rawTransport raw = "rfcomm" →
      DeviceManager.fieldPresent (jget raw "rfcomm_channel") = none →
      pyLower (pyStrip (jgetStrOr raw "service_uuid" "")) = "" →
      pyStrip (jgetStrOr raw "service_name" "") = "" →
      (DeviceManager.normalizeCommandSpec raw).isOk = false) ∧
    (∀ raw : DeviceManager.CmdDict,
      DeviceManager.rawTransport raw = "samsung" →
      DeviceManager.rawSamsungKey raw = "" →
      (DeviceManager.normalizeCommandSpec raw).isOk = false) ∧
    (∀ raw : DeviceManager.CmdDict,
      DeviceManager.rawPayloadHex raw ≠ "" →
      ((removeZeroX (DeviceManager.rawPayloadHex raw).data).filter
        (fun c => !isHexSeparator c)).length % 2 = 1 →
      (DeviceManager.normalizeCommandSpec raw).isOk = false) ∧
    (∀ (raw : DeviceManager.CmdDict) (v : JVal) (n : Int),
      DeviceManager.rawTransport raw = "samsung" →
      DeviceManager.fieldPresent (jget raw "repeat") = some v →
      pyToInt v = some n → n ≤ 0 →
      (DeviceManager.normalizeCommandSpec raw).isOk = false) ∧
    (∀ (entries : List JVal) (spec : DeviceManager.CmdDict),
      spec ∈ DeviceManager.normalizeCommandList (JVal.arr entries) →
      ∃ raw : DeviceManager.CmdDict, JVal.obj raw ∈ entries ∧
        DeviceManager.normalizeCommandSpec raw = .ok spec) := by
  refine ⟨?_, ?_, ?_, ?_, ?_, ?_⟩
  · intro raw ht hch
    refine normalizeCommandSpec_branch_err raw ?_
    rw [ht]
    simp only [if_true, if_pos rfl]
    rw [bleFields_err raw _ hch]
    rfl
  · intro raw ht hchan huuid hname
    refine normalizeCommandSpec_branch_err raw ?_
    rw [ht]
    rw [if_neg (by simp), if_pos rfl]
    unfold DeviceManager.rfcommFields
    rw [hchan]
    dsimp only
    obtain ⟨h1, h2, h3⟩ := baseSpec_no_locators raw
    exact rfcommResponse_err raw _ huuid hname h1 h2 h3
  · intro raw ht hkey
    refine normalizeCommandSpec_branch_err raw ?_
    rw [ht]
    rw [if_neg (by simp), if_neg (by simp)]
    rw [samsungFields_key_err raw _ hkey]
    rfl
  · intro raw hph hodd
    unfold DeviceManager.normalizeCommandSpec
    dsimp only
    by_cases hid : DeviceManager.rawCommandId raw = ""
    · rw [if_pos hid]; rfl
    · rw [if_neg hid]
      by_cases htr : ¬(DeviceManager.rawTransport raw = "ble" ∨
          DeviceManager.rawTransport raw = "rfcomm" ∨ DeviceManager.rawTransport raw = "samsung")
      · rw [if_pos htr]; rfl
      · rw [if_neg htr]
        cases hpa : DeviceManager.rawPayloadAscii raw with
        | error e => rfl
        | ok pa =>
            dsimp only
            rw [if_pos hph, decodePayloadHex_odd _ hodd]
            rfl
  · intro raw v n ht hv hn hle
    refine normalizeCommandSpec_branch_err raw ?_
    rw [ht]
    rw [if_neg (by simp), if_neg (by simp)]
    exact samsungFields_repeat_err raw _ v n hv hn hle
  · intro entries spec hmem
    unfold DeviceManager.normalizeCommandList at hmem
    dsimp only at hmem
    rcases List.mem_map.mp hmem with ⟨kv, hkv, rfl⟩
    exact normalizeCommandList_fold_sound entries
      (fun s => ∃ raw, JVal.obj raw ∈ entries ∧ DeviceManager.normalizeCommandSpec raw = .ok s)
      [] (by intro kv2 h2; cases h2)
      (fun raw sp hm hs => ⟨raw, hm, hs⟩) kv hkv

/-- Witness discharging the hypotheses of c3_command_spec_rejections at a
concrete BLE command map with no characteristic. -/
theorem c3_command_spec_rejections_witness :
    (DeviceManager.normalizeCommandSpec [("id", JVal.str "power_on")]).isOk = false :=
  c3_command_spec_rejections.1 [("id", JVal.str "power_on")] rfl rfl

/-! C4: unknown transports at dispatch. -/

theorem jget_jremove (m : List (String × JVal)) (k k2 : String) (h : ¬(k2 = k)) :
    jget (jremove m k) k2 = jget m k2 := by
  induction m with
  | nil => rfl
  | cons hd tl ih =>
      obtain ⟨k0, v0⟩ := hd
      by_cases hk : k0 = k
      · have hne : ¬(k0 = k2) := fun he => h (he ▸ hk)
        have hfilter : jremove ((k0, v0) :: tl) k = jremove tl k := by
          simp [jremove, List.filter, hk]
        rw [hfilter, ih]
        simp [jget, alookup, hne]
      · have hfilter : jremove ((k0, v0) :: tl) k = (k0, v0) :: jremove tl k := by
          simp [jremove, List.filter, hk]
        rw [hfilter]
        by_cases h2 : k0 = k2
        · simp [jget, alookup, h2]
        · simp only [jget, alookup, if_neg h2]
          exact ih

theorem ingested_transport_known (m : List (String × DeviceManager.CmdDict)) (e : JVal)
    (k : String) (cmd : DeviceManager.CmdDict)
    (hm : ∀ k0 cmd0, alookup m k0 = some cmd0 →
      pyLower (jgetStrOr cmd0 "transport" "ble") = "ble" ∨
      pyLower (jgetStrOr cmd0 "transport" "ble") = "rfcomm" ∨
      pyLower (jgetStrOr cmd0 "transport" "ble") = "samsung")
    (h : alookup (DeviceManager.ingestEntry m e) k = some cmd) :
    pyLower (jgetStrOr cmd "transport" "ble") = "ble" ∨
    pyLower (jgetStrOr cmd "transport" "ble") = "rfcomm" ∨
    pyLower (jgetStrOr cmd "transport" "ble") = "samsung" := by
  unfold DeviceManager.ingestEntry at h
  cases e with
  | obj entry =>
      dsimp only at h
      split at h
      · exact hm k cmd h
      · set t0 := pyLower (jgetStrOr entry "transport" "ble") with ht0
        set t := if t0 = "ble" ∨ t0 = "rfcomm" ∨ t0 = "samsung" then t0 else "ble" with ht
        have htknown : t = "ble" ∨ t = "rfcomm" ∨ t = "samsung" := by
          rw [ht]
          split
          · assumption
          · exact Or.inl rfl
        have htrans : ∀ cmd2 : DeviceManager.CmdDict,
            jget cmd2 "transport" = some (JVal.str t) →
            pyLower (jgetStrOr cmd2 "transport" "ble") = "ble" ∨
            pyLower (jgetStrOr cmd2 "transport" "ble") = "rfcomm" ∨
            pyLower (jgetStrOr cmd2 "transport" "ble") = "samsung" := by
          intro cmd2 hj
          unfold jgetStrOr
          rw [hj]
          rcases htknown with h3 | h3 | h3 <;> rw [h3]
          · exact Or.inl (by decide)
          · exact Or.inr (Or.inl (by decide))
          · exact Or.inr (Or.inr (by decide))
        rw [alookup_assocSet] at h
        split at h
        · cases h
          split
          · cases hch : jget (jset entry "transport" (JVal.str t)) "rfcomm_channel" with
            | none =>
                exact htrans _ (by rw [jget_jset]; simp)
            | some v =>
                cases v with
                | null =>
                    exact htrans _ (by rw [jget_jset]; simp)
                | bool b =>
                    exact htrans _ (by
                      simp only [pyToInt]
                      rw [jget_jset, if_neg (by decide), jget_jset]; simp)
                | int n =>
                    exact htrans _ (by
                      simp only [pyToInt]
                      rw [jget_jset, if_neg (by decide), jget_jset]; simp)
                | rat q =>
                    exact htrans _ (by
                      simp only [pyToInt]
                      rw [jget_jset, if_neg (by decide), jget_jset]; simp)
                | str s =>
                    simp only [pyToInt]
                    cases hpi : pyIntOfString s with
                    | some n =>
                        dsimp only
                        exact htrans _ (by
                          rw [jget_jset, if_neg (by decide), jget_jset]; simp)
                    | none =>
                        dsimp only
                        exact htrans _ (by
                          rw [jget_jremove _ _ _ (by decide), jget_jset]; simp)
                | arr xs =>
                    exact htrans _ (by
                      simp only [pyToInt]
                      rw [jget_jremove _ _ _ (by decide), jget_jset]; simp)
                | obj kvs =>
                    exact htrans _ (by
                      simp only [pyToInt]
                      rw [jget_jremove _ _ _ (by decide), jget_jset]; simp)
          · exact htrans _ (by rw [jget_jset]; simp)
        · exact hm k cmd h
  | null => exact hm k cmd h
  | bool b => exact hm k cmd h
  | int n => exact hm k cmd h
  | rat q => exact hm k cmd h
  | str s => exact hm k cmd h
  | arr xs => exact hm k cmd h

theorem foldl_ingest_known (entries : List JVal) :
    ∀ m : List (String × DeviceManager.CmdDict),
    (∀ k cmd, alookup m k = some cmd →
      pyLower (jgetStrOr cmd "transport" "ble") = "ble" ∨
      pyLower (jgetStrOr cmd "transport" "ble") = "rfcomm" ∨
      pyLower (jgetStrOr cmd "transport" "ble") = "samsung") →
    ∀ k cmd, alookup (entries.foldl DeviceManager.ingestEntry m) k = some cmd →
      pyLower (jgetStrOr cmd "transport" "ble") = "ble" ∨
      pyLower (jgetStrOr cmd "transport" "ble") = "rfcomm" ∨
      pyLower (jgetStrOr cmd "transport" "ble") = "samsung" := by
  induction entries with
  | nil => intro m hm k cmd h; exact hm k cmd h
  | cons e rest ih =>
      intro m hm k cmd h
      rw [List.foldl_cons] at h
      exact ih (DeviceManager.ingestEntry m e)
        (fun k0 cmd0 h0 => ingested_transport_known m e k0 cmd0 hm h0) k cmd h

theorem applyMapping_fold_known (kvs : List (String × JVal)) :
    ∀ m : List (String × DeviceManager.CmdDict),
    (∀ k cmd, alookup m k = some cmd →
      pyLower (jgetStrOr cmd "transport" "ble") = "ble" ∨
      pyLower (jgetStrOr cmd "transport" "ble") = "rfcomm" ∨
      pyLower (jgetStrOr cmd "transport" "ble") = "samsung") →
    ∀ k cmd, alookup (kvs.foldl
        (fun acc kv =>
          let cid := pyStrip (if kv.2.truthy then kv.2.pyStr else "")
          if cid = "" then acc
          else
            match alookup acc cid with
            | some spec => assocSet acc kv.1 spec
            | none => acc) m) k = some cmd →
      pyLower (jgetStrOr cmd "transport" "ble") = "ble" ∨
      pyLower (jgetStrOr cmd "transport" "ble") = "rfcomm" ∨
      pyLower (jgetStrOr cmd "transport" "ble") = "samsung" := by
  induction kvs with
  | nil => intro m hm k cmd h; exact hm k cmd h
  | cons kv rest ih =>
      intro m hm k cmd h
      rw [List.foldl_cons] at h
      refine ih _ ?_ k cmd h
      intro k2 c2 h2
      dsimp only at h2
      by_cases hcid : pyStrip (if kv.2.truthy then kv.2.pyStr else "") = ""
      · rw [if_pos hcid] at h2
        exact hm k2 c2 h2
      · rw [if_neg hcid] at h2
        cases hsp : alookup m (pyStrip (if kv.2.truthy then kv.2.pyStr else "")) with
        | none =>
            rw [hsp] at h2
            exact hm k2 c2 h2
        | some spec =>
            rw [hsp] at h2
            dsimp only at h2
            rw [alookup_assocSet] at h2
            split at h2
            · cases h2; exact hm _ _ hsp
            · exact hm k2 c2 h2

theorem applyMapping_known (mapping : Option JVal)
    (m : List (String × DeviceManager.CmdDict))
    (hm : ∀ k cmd, alookup m k = some cmd →
      pyLower (jgetStrOr cmd "transport" "ble") = "ble" ∨
      pyLower (jgetStrOr cmd "transport" "ble") = "rfcomm" ∨
      pyLower (jgetStrOr cmd "transport" "ble") = "samsung") :
    ∀ k cmd, alookup (DeviceManager.applyMapping m mapping) k = some cmd →
      pyLower (jgetStrOr cmd "transport" "ble") = "ble" ∨
      pyLower (jgetStrOr cmd "transport" "ble") = "rfcomm" ∨
      pyLower (jgetStrOr cmd "transport" "ble") = "samsung" := by
  unfold DeviceManager.applyMapping
  match mapping with
  | none => exact hm
  | some .null | some (.bool _) | some (.int _) | some (.rat _) | some (.str _)
  | some (.arr _) => exact hm
  | some (.obj kvs) => exact applyMapping_fold_known kvs m hm

theorem ingest_step_known (md : List (String × JVal)) (key : String)
    (m : List (String × DeviceManager.CmdDict))
    (hm : ∀ k cmd, alookup m k = some cmd →
      pyLower (jgetStrOr cmd "transport" "ble") = "ble" ∨
      pyLower (jgetStrOr cmd "transport" "ble") = "rfcomm" ∨
      pyLower (jgetStrOr cmd "transport" "ble") = "samsung") :
    ∀ k cmd, alookup (match jget md key with
        | some (.arr entries) => entries.foldl DeviceManager.ingestEntry m
        | _ => m) k = some cmd →
      pyLower (jgetStrOr cmd "transport" "ble") = "ble" ∨
      pyLower (jgetStrOr cmd "transport" "ble") = "rfcomm" ∨
      pyLower (jgetStrOr cmd "transport" "ble") = "samsung" := by
  cases hj : jget md key with
  | none => exact hm
  | some v =>
      cases v with
      | arr entries => exact foldl_ingest_known entries m hm
      | null => exact hm
      | bool b => exact hm
      | int n => exact hm
      | rat q => exact hm
      | str s => exact hm
      | obj kvs2 => exact hm

theorem commandMap_transport_known (d : Device) (k : String) (cmd : DeviceManager.CmdDict)
    (h : alookup (DeviceManager.commandMap d) k = some cmd) :
    pyLower (jgetStrOr cmd "transport" "ble") = "ble" ∨
    pyLower (jgetStrOr cmd "transport" "ble") = "rfcomm" ∨
    pyLower (jgetStrOr cmd "transport" "ble") = "samsung" := by
  unfold DeviceManager.commandMap at h
  dsimp only at h
  refine applyMapping_known _ _ (fun k1 c1 h1 => applyMapping_known _ _ ?_ k1 c1 h1) k cmd h
  refine ingest_step_known d.metadata "samsung_commands" _ ?_
  refine ingest_step_known d.metadata "network_commands" _ ?_
  refine ingest_step_known d.metadata "classic_commands" _ ?_
  refine ingest_step_known d.metadata "ble_commands" _ ?_
  intro k0 c0 h0
  cases h0

theorem normalizeCommandSpec_unknown_transport (raw : DeviceManager.CmdDict)
    (h : ¬(DeviceManager.rawTransport raw = "ble" ∨ DeviceManager.rawTransport raw = "rfcomm" ∨
      DeviceManager.rawTransport raw = "samsung")) :
    (DeviceManager.normalizeCommandSpec raw).isOk = false := by
  unfold DeviceManager.normalizeCommandSpec
  dsimp only
  by_cases hid : DeviceManager.rawCommandId raw = ""
  · rw [if_pos hid]; rfl
  · rw [if_neg hid, if_pos h]; rfl

theorem rawTransport_jset_id (payload : DeviceManager.CmdDict) (v : JVal) :
    DeviceManager.rawTransport (jset payload "id" v) = DeviceManager.rawTransport payload := by
  unfold DeviceManager.rawTransport
  rw [jget_jset, if_neg (by decide), jget_jset, if_neg (by decide)]

theorem executeInline_unknown_transport (d : Device) (payload : DeviceManager.CmdDict)
    (h : ¬(DeviceManager.rawTransport payload = "ble" ∨
      DeviceManager.rawTransport payload = "rfcomm" ∨
      DeviceManager.rawTransport payload = "samsung")) :
    (DeviceManager.executeInlineCheck d payload).isOk = false := by
  unfold DeviceManager.executeInlineCheck
  dsimp only
  have h2 : ¬(DeviceManager.rawTransport
      (jset payload "id" (pyOrJ (jget payload "id") (JVal.str "__inline__"))) = "ble" ∨
      DeviceManager.rawTransport
        (jset payload "id" (pyOrJ (jget payload "id") (JVal.str "__inline__"))) = "rfcomm" ∨
      DeviceManager.rawTransport
        (jset payload "id" (pyOrJ (jget payload "id") (JVal.str "__inline__"))) = "samsung") := by
    rw [rawTransport_jset_id]
    exact h
  cases hn : DeviceManager.normalizeCommandSpec
      (jset payload "id" (pyOrJ (jget payload "id") (JVal.str "__inline__"))) with
  | error e => rfl
  | ok spec =>
      have := normalizeCommandSpec_unknown_transport _ h2
      rw [hn] at this
      exact Bool.noConfusion this

theorem sendCommand_unknown_transport (d : Device) (cid : String) (response : List Nat)
    (now : String)
    (h : ∀ cmd, alookup (DeviceManager.commandMap d) cid = some cmd →
      ¬(pyLower (jgetStrOr cmd "transport" "ble") = "ble" ∨
        pyLower (jgetStrOr cmd "transport" "ble") = "rfcomm" ∨
        pyLower (jgetStrOr cmd "transport" "ble") = "samsung")) :
    (DeviceManager.sendCommand d cid response now).isOk = false := by
  unfold DeviceManager.sendCommand DeviceManager.sendCommandAction
  cases hl : alookup (DeviceManager.commandMap d) cid with
  | none => rfl
  | some cmd =>
      dsimp only
      have h2 := h cmd hl
      push_neg at h2
      rw [if_neg (by
        intro hc
        rcases hc with hc | hc
        · exact h2.1 hc
        · exact h2.2.1 hc)]
      rw [if_neg h2.2.2]
      rfl

/-- C4 (amended): an inline command with an unknown transport tag is
rejected, and send_command rejects when the looked-up command's
transport tag is unknown (or the command is absent); however the
per-device command table coerces an unknown stored transport tag to
`ble` — every table entry has a known transport, and an entry whose
stored tag is unrecognized is ingested with transport `ble` — so a
stored command with an unknown tag is dispatched under the BLE
transport instead of being rejected. -/
theorem c4_unknown_transport_dispatch :
    (∀ (d : Device) (payload : DeviceManager.CmdDict),
      ¬(DeviceManager.rawTransport payload = "ble" ∨
        DeviceManager.rawTransport payload = "rfcomm" ∨
        DeviceManager.rawTransport payload = "samsung") →
      (DeviceManager.executeInlineCheck d payload).isOk = false) ∧
    (∀ (d : Device) (cid : String) (response : List Nat) (now : String),
      (∀ cmd, alookup (DeviceManager.commandMap d) cid = some cmd →
        ¬(pyLower (jgetStrOr cmd "transport" "ble") = "ble" ∨
          pyLower (jgetStrOr cmd "transport" "ble") = "rfcomm" ∨
          pyLower (jgetStrOr cmd "transport" "ble") = "samsung")) →
      (DeviceManager.sendCommand d cid response now).isOk = false) ∧
    (∀ (d : Device) (k : String) (cmd : DeviceManager.CmdDict),
      alookup (DeviceManager.commandMap d) k = some cmd →
      pyLower (jgetStrOr cmd "transport" "ble") = "ble" ∨
      pyLower (jgetStrOr cmd "transport" "ble") = "rfcomm" ∨
      pyLower (jgetStrOr cmd "transport" "ble") = "samsung") ∧
    (∀ (m : List (String × DeviceManager.CmdDict)) (entry : DeviceManager.CmdDict),
      pyStrip (jgetStrOr entry "id" "") ≠ "" →
      ¬(pyLower (jgetStrOr entry "transport" "ble") = "ble" ∨
        pyLower (jgetStrOr entry "transport" "ble") = "rfcomm" ∨
        pyLower (jgetStrOr entry "transport" "ble") = "samsung") →
      alookup (DeviceManager.ingestEntry m (JVal.obj entry))
          (pyStrip (jgetStrOr entry "id" "")) =
        some (jset entry "transport" (JVal.str "ble"))) := by
  refine ⟨executeInline_unknown_transport, sendCommand_unknown_transport,
    commandMap_transport_known, ?_⟩
  intro m entry hid hunk
  unfold DeviceManager.ingestEntry
  dsimp only
  rw [if_neg hid, if_neg hunk]
  rw [if_neg (by decide : ¬(("ble" : String) = "rfcomm"))]
  rw [alookup_assocSet, if_pos rfl]

/-- Counterexample to C4 as stated: a stored command whose transport tag
is `wifi` (unknown) is not rejected by send_command; the table coerces
it and it executes under the BLE transport. -/
theorem c4_unknown_transport_counterexample :
    jget [("id", JVal.str "mute"), ("transport", JVal.str "wifi"),
        ("characteristic", JVal.str "c")] "transport" = some (JVal.str "wifi") ∧
    (DeviceManager.sendCommand
      { id := "d", name := "n", type := "Display", room := "r", protocols := ["bluetooth"],
        integrations := [], address := some "AA:BB:CC:DD:EE:FF",
        metadata := [("ble_commands", JVal.arr
          [JVal.obj [("id", JVal.str "mute"), ("transport", JVal.str "wifi"),
            ("characteristic", JVal.str "c")]])] }
      "mute" [] "now").isOk = true ∧
    (DeviceManager.sendCommandAction
      { id := "d", name := "n", type := "Display", room := "r", protocols := ["bluetooth"],
        integrations := [], address := some "AA:BB:CC:DD:EE:FF",
        metadata := [("ble_commands", JVal.arr
          [JVal.obj [("id", JVal.str "mute"), ("transport", JVal.str "wifi"),
            ("characteristic", JVal.str "c")]])] }
      "mute").toOption.map Prod.fst = some "ble" :=
  ⟨rfl, rfl, rfl⟩

/-- Witness discharging the hypotheses of c4_unknown_transport_dispatch
at concrete inputs. -/
theorem c4_unknown_transport_dispatch_witness :
    (DeviceManager.executeInlineCheck
      { id := "d", name := "n", type := "Display", room := "r", protocols := ["bluetooth"],
        integrations := [], address := some "AA:BB:CC:DD:EE:FF" }
      [("id", JVal.str "x"), ("transport", JVal.str "wifi")]).isOk = false ∧
    alookup (DeviceManager.ingestEntry []
        (JVal.obj [("id", JVal.str "mute"), ("transport", JVal.str "wifi"),
          ("characteristic", JVal.str "c")])) "mute" =
      some (jset [("id", JVal.str "mute"), ("transport", JVal.str "wifi"),
        ("characteristic", JVal.str "c")] "transport" (JVal.str "ble")) :=
  ⟨c4_unknown_transport_dispatch.1
      { id := "d", name := "n", type := "Display", room := "r", protocols := ["bluetooth"],
        integrations := [], address := some "AA:BB:CC:DD:EE:FF" }
      [("id", JVal.str "x"), ("transport", JVal.str "wifi")] (by decide),
    c4_unknown_transport_dispatch.2.2.2 []
      [("id", JVal.str "mute"), ("transport", JVal.str "wifi"),
        ("characteristic", JVal.str "c")] (by decide) (by decide)⟩

/-! C1: protocol tags across update operations. -/

theorem mergeClassicCaps_protocols_id (d : Device) (md caps : List (String × JVal)) :
    (DeviceManager.mergeClassicCaps d md caps).1.protocols = d.protocols ∧
    (DeviceManager.mergeClassicCaps d md caps).1.id = d.id := by
  unfold DeviceManager.mergeClassicCaps
  split
  · exact ⟨rfl, rfl⟩
  · exact ⟨rfl, rfl⟩

/-- C1 (amended): protocols grow union-only under Bluetooth pairing and
Samsung pairing, and metadata updates leave them unchanged; but the
HomeKit cache refresh overwrites an existing device's protocols with
exactly `["homekit"]`, which can remove previously present protocol
tags. -/
theorem c1_protocols_union_growth :
    (∀ (devices : List (String × Device)) (payload : DeviceManager.PairPayload)
        (pairTrust : Except String Unit) (caps : List (String × JVal)) (now : String)
        (d2 : Device),
      (∀ k dv, alookup devices k = some dv → dv.id = k) →
      DeviceManager.pairBluetoothDevice devices payload pairTrust caps now = .ok d2 →
      ∀ d0, alookup devices d2.id = some d0 → ∀ p ∈ d0.protocols, p ∈ d2.protocols) ∧
    (∀ (d : Device) (ip freshClientId : String) (result : SamsungRemoteResult) (now : String)
        (d2 : Device),
      DeviceManager.pairSamsungDevice d ip freshClientId result now = .ok d2 →
      ∀ p ∈ d.protocols, p ∈ d2.protocols) ∧
    (∀ (d : Device) (md : List (String × JVal)),
      (updateDeviceMetadata d md).protocols = d.protocols) ∧
    (∀ (d : Device) (acc : Accessory) (now : String),
      (refreshHomekitExisting d acc now).protocols = ["homekit"]) := by
  refine ⟨?_, ?_, ?_, ?_⟩
  · intro devices payload pairTrust caps now d2 hcons h d0 hlook p hp
    simp only [DeviceManager.pairBluetoothDevice] at h
    split at h
    · exact absurd h (fun hc => Except.noConfusion hc)
    · split at h
      · exact absurd h (fun hc => Except.noConfusion hc)
      · rename_i address hnorm
        split at h
        · exact absurd h (fun hc => Except.noConfusion hc)
        · rename_i md1 hstep
          cases h
          dsimp only at hlook ⊢
          rw [(mergeClassicCaps_protocols_id _ _ _).1]
          rw [(mergeClassicCaps_protocols_id _ _ _).2] at hlook
          dsimp only at hlook ⊢
          rw [mem_sortedSet, List.mem_append]
          cases hbk : alookup devices (DeviceManager.pairDeviceId payload address) with
          | some dev =>
              unfold DeviceManager.pairBaseDevice at hlook ⊢
              rw [hbk] at hlook ⊢
              dsimp only at hlook ⊢
              rw [hcons _ _ hbk, hbk] at hlook
              cases hlook
              exact Or.inl hp
          | none =>
              unfold DeviceManager.pairBaseDevice at hlook
              rw [hbk] at hlook
              dsimp only at hlook
              rw [hbk] at hlook
              exact Option.noConfusion hlook
  · intro d ip freshClientId result now d2 h p hp
    simp only [DeviceManager.pairSamsungDevice] at h
    split at h
    · exact absurd h (fun hc => Except.noConfusion hc)
    · cases h
      dsimp only
      split
      · exact List.mem_append.mpr (Or.inl hp)
      · exact hp
  · intro d md; rfl
  · intro d acc now; rfl

/-- Counterexample to C1 as stated: a device reachable over Bluetooth
that the HomeKit refresh updates ends with protocols exactly
`["homekit"]`; the `bluetooth` tag is silently removed. -/
theorem c1_homekit_refresh_counterexample :
    ({ id := "d", name := "n", type := "Display", room := "r", protocols := ["bluetooth"],
       integrations := [] } : Device).protocols = ["bluetooth"] ∧
    (refreshHomekitExisting
      { id := "d", name := "n", type := "Display", room := "r", protocols := ["bluetooth"],
        integrations := [] }
      { identifier := "d", name := "N", room := "R", pairing_id := "p", aid := 1, iid := 2,
        is_on := true } "now").protocols = ["homekit"] ∧
    ¬("bluetooth" ∈ (refreshHomekitExisting
      { id := "d", name := "n", type := "Display", room := "r", protocols := ["bluetooth"],
        integrations := [] }
      { identifier := "d", name := "N", room := "R", pairing_id := "p", aid := 1, iid := 2,
        is_on := true } "now").protocols) :=
  ⟨rfl, rfl, by decide⟩

/-- Witness discharging the hypotheses of c1_protocols_union_growth at
concrete inputs: a successful Samsung pairing keeps the existing
bluetooth tag. -/
theorem c1_protocols_union_growth_witness :
    "bluetooth" ∈ ((DeviceManager.pairSamsungDevice
      { id := "d", name := "n", type := "Display", room := "r", protocols := ["bluetooth"],
        integrations := [] }
      "10.0.0.9" "cid" { token := some "tok", messages := [], error := none }
      "now").toOption.getD
      { id := "d", name := "n", type := "Display", room := "r", protocols := ["bluetooth"],
        integrations := [] }).protocols :=
  c1_protocols_union_growth.2.1
    { id := "d", name := "n", type := "Display", room := "r", protocols := ["bluetooth"],
      integrations := [] }
    "10.0.0.9" "cid" { token := some "tok", messages := [], error := none } "now" _ rfl
    "bluetooth" (by decide)

/-! C2: Bluetooth address normalization. -/

theorem toLower_hex_range (c : Char) (h : isHexDigitPy c = true) :
    (48 ≤ (Char.toLower c).toNat ∧ (Char.toLower c).toNat ≤ 57) ∨
    (97 ≤ (Char.toLower c).toNat ∧ (Char.toLower c).toNat ≤ 102) := by
  simp only [isHexDigitPy, Bool.or_eq_true, Bool.and_eq_true, decide_eq_true_eq] at h
  rcases h with (⟨h1, h2⟩ | ⟨h1, h2⟩) | ⟨h1, h2⟩
  · left
    unfold Char.toLower
    rw [if_neg (by omega)]
    omega
  · right
    unfold Char.toLower
    rw [if_neg (by omega)]
    omega
  · right
    have hlow : (Char.toLower c).toNat = c.toNat + 32 := by
      unfold Char.toLower
      rw [if_pos (by omega)]
      rw [Char.ofNat, dif_pos (by omega)]
      simp [Char.ofNatAux, Char.toNat, UInt32.toNat, UInt32.ofNatCore]
    omega

theorem char_ne_of_toNat (a b : Char) (h : a.toNat ≠ b.toNat) : ¬(a = b) :=
  fun he => h (congrArg Char.toNat he)

theorem hexCharFacts (c : Char) (h : isHexDigitPy c = true) :
    isSpacePy c = false ∧ ¬(c = '-') ∧ ¬(c = '.') ∧
    ¬(c = '/') ∧ ¬(c = '_') ∧
    ¬('v' = Char.toLower c) ∧ ¬('l' = Char.toLower c) ∧ ¬('u' = Char.toLower c) := by
  have hr := toLower_hex_range c h
  simp only [isHexDigitPy, Bool.or_eq_true, Bool.and_eq_true, decide_eq_true_eq] at h
  refine ⟨?_, ?_, ?_, ?_, ?_, ?_, ?_, ?_⟩
  · simp only [isSpacePy, Bool.or_eq_false_iff, decide_eq_false_iff_not]
    omega
  · exact char_ne_of_toNat _ _ (by rw [show ('-').toNat = 45 from by decide]; omega)
  · exact char_ne_of_toNat _ _ (by rw [show ('.').toNat = 46 from by decide]; omega)
  · exact char_ne_of_toNat _ _ (by rw [show ('/').toNat = 47 from by decide]; omega)
  · exact char_ne_of_toNat _ _ (by rw [show ('_').toNat = 95 from by decide]; omega)
  · exact char_ne_of_toNat _ _ (by rw [show ('v').toNat = 118 from by decide]; omega)
  · exact char_ne_of_toNat _ _ (by rw [show ('l').toNat = 108 from by decide]; omega)
  · exact char_ne_of_toNat _ _ (by rw [show ('u').toNat = 117 from by decide]; omega)

theorem exists_twelve_chars (hs : List Char) (h : hs.length = 12) :
    ∃ a b c d e f g u i j k l, hs = [a, b, c, d, e, f, g, u, i, j, k, l] := by
  obtain ⟨c0, hs, rfl⟩ := List.exists_of_length_succ hs h
  replace h : hs.length = 11 := by simp only [List.length_cons] at h; omega
  obtain ⟨c1, hs, rfl⟩ := List.exists_of_length_succ hs h
  replace h : hs.length = 10 := by simp only [List.length_cons] at h; omega
  obtain ⟨c2, hs, rfl⟩ := List.exists_of_length_succ hs h
  replace h : hs.length = 9 := by simp only [List.length_cons] at h; omega
  obtain ⟨c3, hs, rfl⟩ := List.exists_of_length_succ hs h
  replace h : hs.length = 8 := by simp only [List.length_cons] at h; omega
  obtain ⟨c4, hs, rfl⟩ := List.exists_of_length_succ hs h
  replace h : hs.length = 7 := by simp only [List.length_cons] at h; omega
  obtain ⟨c5, hs, rfl⟩ := List.exists_of_length_succ hs h
  replace h : hs.length = 6 := by simp only [List.length_cons] at h; omega
  obtain ⟨c6, hs, rfl⟩ := List.exists_of_length_succ hs h
  replace h : hs.length = 5 := by simp only [List.length_cons] at h; omega
  obtain ⟨c7, hs, rfl⟩ := List.exists_of_length_succ hs h
  replace h : hs.length = 4 := by simp only [List.length_cons] at h; omega
  obtain ⟨c8, hs, rfl⟩ := List.exists_of_length_succ hs h
  replace h : hs.length = 3 := by simp only [List.length_cons] at h; omega
  obtain ⟨c9, hs, rfl⟩ := List.exists_of_length_succ hs h
  replace h : hs.length = 2 := by simp only [List.length_cons] at h; omega
  obtain ⟨c10, hs, rfl⟩ := List.exists_of_length_succ hs h
  replace h : hs.length = 1 := by simp only [List.length_cons] at h; omega
  obtain ⟨c11, hs, rfl⟩ := List.exists_of_length_succ hs h
  replace h : hs.length = 0 := by simp only [List.length_cons] at h; omega
  rw [List.length_eq_zero] at h
  subst h
  exact ⟨c0, c1, c2, c3, c4, c5, c6, c7, c8, c9, c10, c11, rfl⟩

/-- C2 (amended): on every 12-hex-digit input in any accepted raw form
(bare, underscore-separated, dash-separated, dev-prefixed) both
normalizers return the same canonical uppercase colon-separated address,
and DeviceManager._normalize_bt_address rejects every input that does
not clean up to exactly 12 hex digits; but
BluetoothController._normalize_bt_address does not reject such inputs:
it falls back to returning the uppercased stripped input. -/
theorem c2_bt_address_normalization :
    (∀ hs : List Char, hs.length = 12 → (∀ c ∈ hs, isHexDigitPy c = true) →
      DeviceManager.normalizeBtAddress (renderBare hs) = .ok (canonColon hs) ∧
      DeviceManager.normalizeBtAddress (renderSep '_' hs) = .ok (canonColon hs) ∧
      DeviceManager.normalizeBtAddress (renderSep '-' hs) = .ok (canonColon hs) ∧
      DeviceManager.normalizeBtAddress (renderDev hs) = .ok (canonColon hs) ∧
      BluetoothController.normalizeBtAddress (renderBare hs) = .ok (canonColon hs) ∧
      BluetoothController.normalizeBtAddress (renderSep '_' hs) = .ok (canonColon hs) ∧
      BluetoothController.normalizeBtAddress (renderSep '-' hs) = .ok (canonColon hs) ∧
      BluetoothController.normalizeBtAddress (renderDev hs) = .ok (canonColon hs)) ∧
    (∀ s : String, (DeviceManager.extractHexDigits s).data.length ≠ 12 →
      (DeviceManager.normalizeBtAddress s).isOk = false) := by
  constructor
  · intro hs hlen hhex
    obtain ⟨c0, c1, c2, c3, c4, c5, c6, c7, c8, c9, c10, c11, rfl⟩ :=
      exists_twelve_chars hs hlen
    have hx0 := hhex c0 (by simp)
    have hx1 := hhex c1 (by simp)
    have hx2 := hhex c2 (by simp)
    have hx3 := hhex c3 (by simp)
    have hx4 := hhex c4 (by simp)
    have hx5 := hhex c5 (by simp)
    have hx6 := hhex c6 (by simp)
    have hx7 := hhex c7 (by simp)
    have hx8 := hhex c8 (by simp)
    have hx9 := hhex c9 (by simp)
    have hx10 := hhex c10 (by simp)
    have hx11 := hhex c11 (by simp)
    obtain ⟨hs0, hd0, hp0, hq0, hu0, hv0, hl0, hw0⟩ := hexCharFacts c0 hx0
    obtain ⟨hs1, hd1, hp1, hq1, hu1, hv1, hl1, hw1⟩ := hexCharFacts c1 hx1
    obtain ⟨hs2, hd2, hp2, hq2, hu2, hv2, hl2, hw2⟩ := hexCharFacts c2 hx2
    obtain ⟨hs3, hd3, hp3, hq3, hu3, hv3, hl3, hw3⟩ := hexCharFacts c3 hx3
    obtain ⟨hs4, hd4, hp4, hq4, hu4, hv4, hl4, hw4⟩ := hexCharFacts c4 hx4
    obtain ⟨hs5, hd5, hp5, hq5, hu5, hv5, hl5, hw5⟩ := hexCharFacts c5 hx5
    obtain ⟨hs6, hd6, hp6, hq6, hu6, hv6, hl6, hw6⟩ := hexCharFacts c6 hx6
    obtain ⟨hs7, hd7, hp7, hq7, hu7, hv7, hl7, hw7⟩ := hexCharFacts c7 hx7
    obtain ⟨hs8, hd8, hp8, hq8, hu8, hv8, hl8, hw8⟩ := hexCharFacts c8 hx8
    obtain ⟨hs9, hd9, hp9, hq9, hu9, hv9, hl9, hw9⟩ := hexCharFacts c9 hx9
    obtain ⟨hs10, hd10, hp10, hq10, hu10, hv10, hl10, hw10⟩ := hexCharFacts c10 hx10
    obtain ⟨hs11, hd11, hp11, hq11, hu11, hv11, hl11, hw11⟩ := hexCharFacts c11 hx11
    refine ⟨?_, ?_, ?_, ?_, ?_, ?_, ?_, ?_⟩ <;>
    · simp [DeviceManager.normalizeBtAddress, DeviceManager.extractHexDigits, renderBare,
        renderSep, renderDev, canonColon, pyStrip, pyLower, pyStartsWith, pyDrop, replaceCh,
        String.ext_iff, show ("" : String).data = [] from rfl, String.data_append,
        hs0, hs1, hs2, hs3, hs4, hs5, hs6, hs7, hs8, hs9, hs10, hs11,
        hd0, hd1, hd2, hd3, hd4, hd5, hd6, hd7, hd8, hd9, hd10, hd11,
        hp0, hp1, hp2, hp3, hp4, hp5, hp6, hp7, hp8, hp9, hp10, hp11,
        hq0, hq1, hq2, hq3, hq4, hq5, hq6, hq7, hq8, hq9, hq10, hq11,
        hu0, hu1, hu2, hu3, hu4, hu5, hu6, hu7, hu8, hu9, hu10, hu11,
        hv0, hv1, hv2, hv3, hv4, hv5, hv6, hv7, hv8, hv9, hv10, hv11,
        hl0, hl1, hl2, hl3, hl4, hl5, hl6, hl7, hl8, hl9, hl10, hl11,
        hw0, hw1, hw2, hw3, hw4, hw5, hw6, hw7, hw8, hw9, hw10, hw11,
        hx0, hx1, hx2, hx3, hx4, hx5, hx6, hx7, hx8, hx9, hx10, hx11,
        show isHexDigitPy (Char.ofNat 58) = false from by decide,
        show isSpacePy (Char.ofNat 58) = false from by decide,
        show isHexDigitPy (Char.ofNat 100) = true from by decide,
        show isSpacePy (Char.ofNat 100) = false from by decide,
        show isHexDigitPy (Char.ofNat 101) = true from by decide,
        show isSpacePy (Char.ofNat 101) = false from by decide,
        show isHexDigitPy (Char.ofNat 118) = false from by decide,
        show isSpacePy (Char.ofNat 118) = false from by decide,
        show isHexDigitPy (Char.ofNat 95) = false from by decide,
        show isSpacePy (Char.ofNat 95) = false from by decide,
        show isHexDigitPy (Char.ofNat 45) = false from by decide,
        show isSpacePy (Char.ofNat 45) = false from by decide,
        show Char.toLower (Char.ofNat 100) = Char.ofNat 100 from by decide,
        show Char.toLower (Char.ofNat 101) = Char.ofNat 101 from by decide,
        show Char.toLower (Char.ofNat 118) = Char.ofNat 118 from by decide,
        show Char.toLower (Char.ofNat 95) = Char.ofNat 95 from by decide,
        show ((Char.ofNat 58) = Char.ofNat 95) = False from by decide,
        show Char.toLower (Char.ofNat 45) = Char.ofNat 45 from by decide,
        show ((Char.ofNat 118) = Char.ofNat 45) = False from by decide,
        show ((Char.ofNat 118) = Char.ofNat 95) = False from by decide,
        BluetoothController.normalizeBtAddress, BluetoothController.stripKnownPrefix,
        Function.comp_apply]
  · intro s hne
    simp only [DeviceManager.normalizeBtAddress]
    split
    · rfl
    · rfl

/-- Counterexample to the rejection half of C2 as stated: a 6-hex-digit
input is not rejected by BluetoothController._normalize_bt_address; the
fallback returns the uppercased input as a success. -/
theorem c2_btc_no_rejection_counterexample :
    BluetoothController.normalizeBtAddress "aabbcc" = .ok "AABBCC" ∧
    ((pyStrip "aabbcc").data.filter isHexDigitPy).length = 6 :=
  ⟨rfl, rfl⟩

/-- Witness discharging the hypotheses of c2_bt_address_normalization at
concrete inputs. -/
theorem c2_bt_address_normalization_witness :
    DeviceManager.normalizeBtAddress
        (renderDev ['a', 'a', 'b', 'b', 'c', 'c', 'd', 'd', 'e', 'e', 'f', 'f']) =
      .ok (canonColon ['a', 'a', 'b', 'b', 'c', 'c', 'd', 'd', 'e', 'e', 'f', 'f']) ∧
    (DeviceManager.normalizeBtAddress "12345").isOk = false :=
  ⟨(c2_bt_address_normalization.1
      ['a', 'a', 'b', 'b', 'c', 'c', 'd', 'd', 'e', 'e', 'f', 'f']
      (by decide) (by decide)).2.2.2.1,
   c2_bt_address_normalization.2 "12345" (by decide)⟩
